import Mathlib

/-!
Verification of the issue-tracking tool gateway (Jira / Xray clients and
their MCP tool wrappers) against its natural-language specification.

The development shallowly embeds the Python sources:
  * `app/services/jira_client.py`   (`JiraClient.get_issue` and helpers)
  * `app/services/xray_client.py`   (`XrayClient` token manager and
    `get_test_case`)
  * `app/fabric_mcp/jira_mcp_server.py` / `xray_mcp_server.py` (tools)

JSON values are modelled by the inductive `JVal`; Python exceptions by
`PyError`; the network environment by per-request oracle types; and all
outbound requests are recorded in a trace, so that "no network call is
attempted" is expressible.  Time is modelled by integers (the source uses
`time.time()` floats; the arithmetic involved, `now + expires_in - 60`,
is exact).
-/

/-- JSON values as produced by `response.json()`.  Objects keep their
(insertion-ordered) key/value list, mirroring Python dicts. -/
inductive JVal where
  | null
  | bool (b : Bool)
  | num (n : Int)
  | str (s : String)
  | obj (d : List (String × JVal))
  | arr (l : List JVal)

mutual

/-- Structural (Python `==`-style) equality test on JSON values. -/
def JVal.beq : JVal → JVal → Bool
  | .null, .null => true
  | .bool a, .bool b => a == b
  | .num a, .num b => a == b
  | .str a, .str b => a == b
  | .obj a, .obj b => beqObj a b
  | .arr a, .arr b => beqArr a b
  | _, _ => false

/-- Equality test on object bodies. -/
def beqObj : List (String × JVal) → List (String × JVal) → Bool
  | [], [] => true
  | (k1, v1) :: r1, (k2, v2) :: r2 => k1 == k2 && JVal.beq v1 v2 && beqObj r1 r2
  | _, _ => false

/-- Equality test on array bodies. -/
def beqArr : List JVal → List JVal → Bool
  | [], [] => true
  | v1 :: r1, v2 :: r2 => JVal.beq v1 v2 && beqArr r1 r2
  | _, _ => false

end

mutual

/-- `JVal.beq` decides equality. -/
def JVal.beq_iff : ∀ a b : JVal, JVal.beq a b = true ↔ a = b
  | .null, .null => by simp [JVal.beq]
  | .bool _, .bool _ => by simp [JVal.beq]
  | .num _, .num _ => by simp [JVal.beq]
  | .str _, .str _ => by simp [JVal.beq]
  | .obj a, .obj b => by simp [JVal.beq, beqObj_iff a b]
  | .arr a, .arr b => by simp [JVal.beq, beqArr_iff a b]
  | .null, .bool _ | .null, .num _ | .null, .str _ | .null, .obj _ | .null, .arr _
  | .bool _, .null | .bool _, .num _ | .bool _, .str _ | .bool _, .obj _ | .bool _, .arr _
  | .num _, .null | .num _, .bool _ | .num _, .str _ | .num _, .obj _ | .num _, .arr _
  | .str _, .null | .str _, .bool _ | .str _, .num _ | .str _, .obj _ | .str _, .arr _
  | .obj _, .null | .obj _, .bool _ | .obj _, .num _ | .obj _, .str _ | .obj _, .arr _
  | .arr _, .null | .arr _, .bool _ | .arr _, .num _ | .arr _, .str _ | .arr _, .obj _ => by
      simp [JVal.beq]

/-- `beqObj` decides equality. -/
def beqObj_iff : ∀ a b : List (String × JVal), beqObj a b = true ↔ a = b
  | [], [] => by simp [beqObj]
  | (_, v1) :: r1, (_, v2) :: r2 => by
      simp [beqObj, JVal.beq_iff v1 v2, beqObj_iff r1 r2, and_assoc]
  | [], _ :: _ => by simp [beqObj]
  | _ :: _, [] => by simp [beqObj]

/-- `beqArr` decides equality. -/
def beqArr_iff : ∀ a b : List JVal, beqArr a b = true ↔ a = b
  | [], [] => by simp [beqArr]
  | v1 :: r1, v2 :: r2 => by simp [beqArr, JVal.beq_iff v1 v2, beqArr_iff r1 r2]
  | [], _ :: _ => by simp [beqArr]
  | _ :: _, [] => by simp [beqArr]

end

instance : DecidableEq JVal := fun a b =>
  decidable_of_iff (JVal.beq a b = true) (JVal.beq_iff a b)

/-- Python `d.get(k)` on a string-keyed dict; our object lists represent
parsed JSON, whose keys are unique, so first binding wins. -/
def pyGet : List (String × JVal) → String → Option JVal
  | [], _ => none
  | (k, v) :: rest, key => if k = key then some v else pyGet rest key

/-- Lookup in a dict whose keys are arbitrary JSON values (the
`field_name_map` built in `get_issue` keys on the metadata `id` values,
which in well-formed responses are strings). -/
def jAssocGet : List (JVal × JVal) → JVal → Option JVal
  | [], _ => none
  | (k, v) :: rest, key => if k = key then some v else jAssocGet rest key

/-- Python `d[k] = v`: replaces the value in place if the key is present,
otherwise appends the new binding (insertion order preserved). -/
def dictInsert (d : List (JVal × JVal)) (k v : JVal) : List (JVal × JVal) :=
  if d.any (fun p => decide (p.1 = k)) then
    d.map (fun p => if p.1 = k then (k, v) else p)
  else d ++ [(k, v)]

/-- Python truthiness of a JSON value. -/
def pyTruthy : JVal → Bool
  | .null => false
  | .bool b => b
  | .num n => decide (n ≠ 0)
  | .str s => decide (s ≠ "")
  | .obj [] => false
  | .obj (_ :: _) => true
  | .arr [] => false
  | .arr (_ :: _) => true

/-- Python `v == 0` for a JSON value (`False == 0` holds in Python). -/
def pyEqZero : JVal → Bool
  | .num n => decide (n = 0)
  | .bool b => !b
  | _ => false

/-! ### Issue-key validation (`_is_valid_issue_key` in both clients) -/

def isUpperCh (c : Char) : Bool := 'A' ≤ c && c ≤ 'Z'

def isDigitCh (c : Char) : Bool := '0' ≤ c && c ≤ '9'

/-- After the leading `[A-Z]`: consume `[A-Z0-9]*`, then a hyphen, then
`[0-9]+` running to the end. -/
def keyTail : List Char → Bool
  | [] => false
  | '-' :: ds => !ds.isEmpty && ds.all isDigitCh
  | c :: rest => (isUpperCh c || isDigitCh c) && keyTail rest

/-- The language of the regex `^[A-Z][A-Z0-9]*-[0-9]+$` quoted by the
spec, with `$` read as end of input. -/
def matchesKeyPattern (s : String) : Bool :=
  match s.toList with
  | [] => false
  | c :: rest => isUpperCh c && keyTail rest

/-- Does the string end with a newline character? -/
def strEndsNewline (s : String) : Bool := s.toList.getLast? = some '\n'

/-- The string with its final character removed. -/
def dropLastChar (s : String) : String := String.mk s.toList.dropLast

/-- Embeds `_is_valid_issue_key` from `jira_client.py` / `xray_client.py`:
`bool(re.match(r"^[A-Z][A-Z0-9]*-[0-9]+$", issue_key))` preceded by an
emptiness check.  Python's `$` also matches just before a single trailing
newline, so the accepted language is the pattern language plus any match
followed by one final `"\n"`. -/
def is_valid_issue_key (s : String) : Bool :=
  matchesKeyPattern s ||
    (strEndsNewline s && matchesKeyPattern (dropLastChar s))

/-! ### Exceptions and the transport environment -/

/-- The Python exceptions that can cross the client/gateway boundary.
In the spec taxonomy: `valueError` carrying a "format" message is
InvalidInput, `valueError` carrying a "does not exist"/"not found"
message is NotFound, `permissionError` is PermissionDenied and
`runtimeError` is Runtime.  `httpStatusError`/`requestError` are the raw
httpx transport exceptions (propagated unmapped only by the token
fetch), and `toolError` is `fastmcp.exceptions.ToolError`. -/
inductive PyError where
  | valueError (msg : String)
  | permissionError (msg : String)
  | runtimeError (msg : String)
  | httpStatusError (status : Nat)
  | requestError (msg : String)
  | toolError (msg : String)
deriving DecidableEq

/-- The behaviour of the upstream on one HTTP data request:
`success body` is a 2xx response whose body parses as JSON,
`httpError n` makes `raise_for_status()` raise `httpx.HTTPStatusError`
with status `n` (a non-2xx status), and `netError m` makes the request
itself raise `httpx.RequestError` (connection/timeout failure). -/
inductive HttpResult where
  | success (body : JVal)
  | httpError (status : Nat)
  | netError (msg : String)
deriving DecidableEq

instance {ε α : Type} [DecidableEq ε] [DecidableEq α] : DecidableEq (Except ε α)
  | .ok x, .ok y =>
      if h : x = y then .isTrue (by rw [h]) else .isFalse (by simp [h])
  | .error e, .error f =>
      if h : e = f then .isTrue (by rw [h]) else .isFalse (by simp [h])
  | .ok _, .error _ => .isFalse (by simp)
  | .error _, .ok _ => .isFalse (by simp)

/-! ### Jira client (`app/services/jira_client.py`) -/

/-- One outbound request of the Jira client (credentials, carried as
basic-auth headers in the source, are not part of the claims). -/
inductive JiraReq where
  | issueGet (url : String)
  | fieldsGet (url : String)
deriving DecidableEq

/-- Upstream responses for the two GETs `get_issue` can perform. -/
structure JiraEnv where
  issueResp : HttpResult
  fieldsResp : HttpResult
deriving DecidableEq

/-- The `issue_info` dict returned by `get_issue`: the fixed
basic-attribute part (string-keyed) and, when `include_all_fields` is
set, the `all_fields` dict, whose keys are resolved display names and so
range over arbitrary JSON values. -/
structure IssueInfo where
  basic : List (String × JVal)
  all_fields : Option (List (JVal × JVal))
deriving DecidableEq

/-- Result of a `get_issue` call together with the trace of attempted
network requests, in order. -/
structure JiraOutcome where
  result : Except PyError IssueInfo
  calls : List JiraReq
deriving DecidableEq

/-- The nested `safe_get` helper of `get_issue`:
`obj.get(key, default)` when `obj` is a truthy dict, else `default`. -/
def safe_get (obj : JVal) (key : String) (dflt : JVal) : JVal :=
  match obj with
  | .obj [] => dflt
  | .obj d => (pyGet d key).getD dflt
  | _ => dflt

/-- `d.get(key)` with Python's `None` default, as `JVal.null`. -/
def fget (d : List (String × JVal)) (key : String) : JVal :=
  (pyGet d key).getD .null

/-- The always-included part of `issue_info` (lines 84-104 of
`jira_client.py`), assembled from the issue body `bd` and its `fields`
object `flds`. -/
def basicInfo (bd flds : List (String × JVal)) : List (String × JVal) :=
  [("key", fget bd "key"),
   ("id", fget bd "id"),
   ("self_url", fget bd "self"),
   ("summary", fget flds "summary"),
   ("description", fget flds "description"),
   ("status", safe_get (fget flds "status") "name" .null),
   ("priority", safe_get (fget flds "priority") "name" .null),
   ("assignee", safe_get (fget flds "assignee") "displayName" (.str "Unassigned")),
   ("reporter", safe_get (fget flds "reporter") "displayName" .null),
   ("created", fget flds "created"),
   ("updated", fget flds "updated"),
   ("issue_type", safe_get (fget flds "issuetype") "name" .null),
   ("project", .obj [("key", safe_get (fget flds "project") "key" .null),
                     ("name", safe_get (fget flds "project") "name" .null)]),
   ("labels", (pyGet flds "labels").getD (.arr []))]

/-- One entry of the dict comprehension
`{field["id"]: field["name"] for field in field_metadata}`: `none` means
the subscript raised (non-dict element or missing key), which the outer
`except Exception` turns into an unexpected `RuntimeError`. -/
def fieldEntry : JVal → Option (JVal × JVal)
  | .obj d =>
      match pyGet d "id" with
      | none => none
      | some i =>
          match pyGet d "name" with
          | none => none
          | some n => some (i, n)
  | _ => none

/-- Folds the dict comprehension over the metadata list. -/
def buildFieldMapAux : List JVal → List (JVal × JVal) → Option (List (JVal × JVal))
  | [], acc => some acc
  | f :: rest, acc =>
      match fieldEntry f with
      | none => none
      | some (i, n) => buildFieldMapAux rest (dictInsert acc i n)

/-- `{field["id"]: field["name"] for field in field_metadata}`.  Iterating
a non-list raises unless the iterable is empty (iterating a dict yields
its keys and a string yields its characters; subscripting those with
`"id"` raises `TypeError`). -/
def buildFieldMap : JVal → Option (List (JVal × JVal))
  | .arr items => buildFieldMapAux items []
  | .obj [] => some []
  | .str "" => some []
  | _ => none

/-- Element reduction inside the list branch of the `all_fields` loop:
`item.get("name") or item.get("displayName") or item.get("value") or item`.
Python `or` skips *falsy* values (absent keys give `None`, but present
empty/zero/false values are skipped too).  `none` means `item` is not a
dict, so `.get` raised `AttributeError`. -/
def simplifyListItem : JVal → Option JVal
  | .obj d =>
      let n := (pyGet d "name").getD .null
      some (if pyTruthy n then n
        else
          let dn := (pyGet d "displayName").getD .null
          if pyTruthy dn then dn
          else
            let v := (pyGet d "value").getD .null
            if pyTruthy v then v else .obj d)
  | _ => none

/-- The list comprehension of the list branch, element by element
(`none` as soon as one element raises). -/
def simplifyItems : List JVal → Option (List JVal)
  | [] => some []
  | x :: rest =>
      match simplifyListItem x with
      | none => none
      | some y =>
          match simplifyItems rest with
          | none => none
          | some ys => some (y :: ys)

/-- The value-simplification rule of the `all_fields` loop (lines 130-156
of `jira_client.py`).  Dicts are reduced by *key presence*
(`"name" in field_value`), lists whose first element is a dict are mapped
with `simplifyListItem`, everything else passes through.  `none` means an
exception escaped (list mixing dicts and non-dicts), which the outer
handler turns into an unexpected `RuntimeError`. -/
def simplifyValue : JVal → Option JVal
  | .null => some .null
  | .obj d =>
      some (match pyGet d "name" with
        | some n => n
        | none =>
          match pyGet d "displayName" with
          | some dn => dn
          | none =>
            match pyGet d "value" with
            | some v => v
            | none => .obj d)
  | .arr [] => some (.arr [])
  | .arr (first :: rest) =>
      match first with
      | .obj _ =>
          match simplifyItems (first :: rest) with
          | none => none
          | some ys => some (.arr ys)
      | _ => some (.arr (first :: rest))
  | v => some v

/-- The canonical display names skipped by the `all_fields` loop. -/
def canonicalNames : List String :=
  ["Summary", "Description", "Status", "Priority", "Assignee", "Reporter",
   "Created", "Updated", "Issue Type", "Project", "Labels"]

/-- `field_name_map.get(field_id, field_id)`: the resolved display name
of a field (falling back to the raw id). -/
def resolveName (fmap : List (JVal × JVal)) (field_id : String) : JVal :=
  (jAssocGet fmap (.str field_id)).getD (.str field_id)

/-- One iteration of the `all_fields` loop body for field `fid ↦ v`. -/
def addField (fmap : List (JVal × JVal)) (acc : List (JVal × JVal))
    (fid : String) (v : JVal) : Option (List (JVal × JVal)) :=
  if canonicalNames.any (fun c => decide (resolveName fmap fid = .str c)) then some acc
  else
    match simplifyValue v with
    | none => none
    | some sv => some (dictInsert acc (resolveName fmap fid) sv)

/-- The `all_fields` loop over `fields.items()` (insertion order). -/
def buildAllFields (fmap : List (JVal × JVal)) :
    List (String × JVal) → List (JVal × JVal) → Option (List (JVal × JVal))
  | [], acc => some acc
  | (fid, v) :: rest, acc =>
      match addField fmap acc fid v with
      | none => none
      | some acc2 => buildAllFields fmap rest acc2

/-- Error mapping of `get_issue`'s `except httpx.HTTPStatusError` clause. -/
def jiraStatusError (issue_key : String) (status : Nat) : PyError :=
  if status = 404 then .valueError ("Issue " ++ issue_key ++ " does not exist")
  else if status = 401 then .permissionError "Authentication failed. Check Jira credentials."
  else if status = 403 then .permissionError ("Access forbidden to issue " ++ issue_key)
  else .runtimeError ("Failed to fetch issue " ++ issue_key ++ ": HTTP " ++ toString status)

/-- Message of the `except Exception` fallback of `get_issue` (the source
appends the repr of the escaped exception). -/
def jiraUnexpectedMsg : String := "Unexpected error fetching issue"

/-- Embeds `JiraClient.get_issue` (lines 38-186 of `jira_client.py`).
Validation happens before the first request; the issue GET and the field
metadata GET are both wrapped by the same `except` clauses; any exception
outside the httpx/ValueError taxonomy is wrapped into a `RuntimeError`. -/
def get_issue (base_url issue_key : String) (include_all_fields : Bool)
    (env : JiraEnv) : JiraOutcome :=
  if is_valid_issue_key issue_key = false then
    { result := .error (.valueError ("Invalid issue key format: " ++ issue_key)),
      calls := [] }
  else
    let issueUrl := base_url ++ "/rest/api/3/issue/" ++ issue_key
    let fieldsUrl := base_url ++ "/rest/api/3/field"
    match env.issueResp with
    | .httpError n =>
        { result := .error (jiraStatusError issue_key n), calls := [.issueGet issueUrl] }
    | .netError m =>
        { result := .error (.runtimeError ("Network error fetching issue: " ++ m)),
          calls := [.issueGet issueUrl] }
    | .success data =>
        let calls := [JiraReq.issueGet issueUrl, JiraReq.fieldsGet fieldsUrl]
        match env.fieldsResp with
        | .httpError n => { result := .error (jiraStatusError issue_key n), calls }
        | .netError m =>
            { result := .error (.runtimeError ("Network error fetching issue: " ++ m)),
              calls }
        | .success meta =>
            match buildFieldMap meta with
            | none => { result := .error (.runtimeError jiraUnexpectedMsg), calls }
            | some fmap =>
                match data with
                | .obj bd =>
                    match (pyGet bd "fields").getD (.obj []) with
                    | .obj flds =>
                        if include_all_fields then
                          match buildAllFields fmap flds [] with
                          | none =>
                              { result := .error (.runtimeError jiraUnexpectedMsg), calls }
                          | some af =>
                              { result := .ok ⟨basicInfo bd flds, some af⟩, calls }
                        else { result := .ok ⟨basicInfo bd flds, none⟩, calls }
                    | _ => { result := .error (.runtimeError jiraUnexpectedMsg), calls }
                | _ => { result := .error (.runtimeError jiraUnexpectedMsg), calls }

/-! ### Xray client (`app/services/xray_client.py`) -/

/-- Constant from `xray_client.py` (line 11). -/
def TOKEN_REFRESH_BUFFER_SECONDS : Int := 60

/-- Constant from `xray_client.py` (line 13); declared in the source but
never used (no retry loop exists, see spec §9). -/
def MAX_RETRIES : Nat := 3

/-- Behaviour of the upstream on the authentication POST:
`success body` is a 2xx response whose *text* is `body`. -/
inductive AuthResult where
  | success (body : String)
  | httpError (status : Nat)
  | netError (msg : String)
deriving DecidableEq

/-- One outbound request of the Xray client.  A `graphqlQuery` records
the bearer token presented, the interpolated JQL filter and the `limit`
variable. -/
inductive XrayReq where
  | authPost
  | graphqlQuery (token : String) (jql : String) (limit : Nat)
deriving DecidableEq

/-- The mutable token state of an `XrayClient` instance
(`_token` and `_token_expires_at`; the latter starts at `0`). -/
structure XrayState where
  token : Option String
  token_expires_at : Int
deriving DecidableEq

/-- Upstream responses for the two POSTs `get_test_case` can perform. -/
structure XrayEnv where
  authResp : AuthResult
  queryResp : HttpResult
deriving DecidableEq

/-- Result of a token-manager step: exception or unit, the new state and
the requests attempted. -/
structure FetchOutcome where
  result : Except PyError Unit
  state : XrayState
  calls : List XrayReq
deriving DecidableEq

/-- Result of a `get_test_case` call: result, final token state and the
trace of attempted requests, in order. -/
structure XrayOutcome where
  result : Except PyError JVal
  state : XrayState
  calls : List XrayReq
deriving DecidableEq

/-- Python `str.strip()` whitespace (ASCII part; tokens are ASCII). -/
def isPyWS (c : Char) : Bool :=
  c = ' ' || c = '\t' || c = '\n' || c = '\r' || c = '\x0b' || c = '\x0c'

/-- `response.text.strip()`. -/
def pyStrip (s : String) : String :=
  String.mk (((s.toList.dropWhile isPyWS).reverse.dropWhile isPyWS).reverse)

/-- Lines 69-70 of `xray_client.py`: drop one pair of surrounding double
quotes when the string both starts and ends with `"` (Python slices
`[1:-1]`, so the single-character string `"` becomes empty). -/
def stripSurroundingQuotes (s : String) : String :=
  let cs := s.toList
  if cs.head? = some '"' ∧ cs.getLast? = some '"' then
    String.mk (cs.drop 1).dropLast
  else s

/-- The token stored by a successful `_fetch_token`: response text,
stripped, with surrounding quotes removed. -/
def parseToken (body : String) : String :=
  stripSurroundingQuotes (pyStrip body)

/-- Embeds `XrayClient._fetch_token` (lines 48-83): POST credentials; on
success store the parsed token and set the expiry to
`now + expires_in - TOKEN_REFRESH_BUFFER_SECONDS`; on any failure
re-raise the raw exception, leaving the state untouched (the two
assignments sit after `raise_for_status()`). -/
def fetch_token (expires_in : Int) (st : XrayState) (now : Int)
    (auth : AuthResult) : FetchOutcome :=
  match auth with
  | .success body =>
      { result := .ok (),
        state := { token := some (parseToken body),
                   token_expires_at := now + expires_in - TOKEN_REFRESH_BUFFER_SECONDS },
        calls := [.authPost] }
  | .httpError n => { result := .error (.httpStatusError n), state := st, calls := [.authPost] }
  | .netError m => { result := .error (.requestError m), state := st, calls := [.authPost] }

/-- Python truthiness of `self._token` (`None` and `""` are falsy). -/
def tokenIsTruthy : Option String → Bool
  | some s => decide (s ≠ "")
  | none => false

/-- Embeds `XrayClient._ensure_valid_token` (lines 85-95): fast-path
check without the lock, then the double-checked refresh under the lock.
In this sequential embedding the re-check re-evaluates the same
condition (the interleaved behaviour is modelled separately by the
`step`/`run` machine below). -/
def ensure_valid_token (expires_in : Int) (st : XrayState) (now : Int)
    (auth : AuthResult) : FetchOutcome :=
  if tokenIsTruthy st.token ∧ now < st.token_expires_at then
    { result := .ok (), state := st, calls := [] }
  else
    if ¬ tokenIsTruthy st.token ∨ now ≥ st.token_expires_at then
      fetch_token expires_in st now auth
    else
      { result := .ok (), state := st, calls := [] }

/-- Error mapping of `get_test_case`'s `except httpx.HTTPStatusError`
clause (lines 168-179). -/
def xrayStatusError (key : String) (status : Nat) : PyError :=
  if status = 404 then .valueError ("Test case " ++ key ++ " does not exist")
  else if status = 401 then .permissionError "Authentication failed. Check Xray credentials."
  else if status = 403 then .permissionError ("Access forbidden to test case " ++ key)
  else .runtimeError ("Failed to fetch test case " ++ key ++ ": HTTP " ++ toString status)

/-- Message of the `except Exception` fallback of `get_test_case` (the
source appends the repr of the escaped exception). -/
def xrayUnexpectedMsg : String := "Unexpected error fetching test case"

/-- Python `results[0]`: defined for non-empty lists and (index-0 of a)
non-empty string; `none` for any other truthy value (`TypeError` or
`KeyError`, funnelled into the unexpected-`RuntimeError` branch). -/
def pyIndexZero : JVal → Option JVal
  | .arr (x :: _) => some x
  | .str s =>
      match s.toList with
      | c :: _ => some (.str (String.mk [c]))
      | [] => none
  | _ => none

/-- Lines 153-166 of `xray_client.py`: extract
`data.get("data", {}).get("getTests", {})`, fail with NotFound when
`total == 0` or `results` is falsy, otherwise return `results[0]`.
Shapes on which a `.get` or the subscript raises fall into the
unexpected-`RuntimeError` branch. -/
def extractTest (key : String) (body : JVal) : Except PyError JVal :=
  match body with
  | .obj bd =>
      match (pyGet bd "data").getD (.obj []) with
      | .obj dd =>
          match (pyGet dd "getTests").getD (.obj []) with
          | .obj gt =>
              if pyEqZero ((pyGet gt "total").getD (.num 0)) then
                .error (.valueError ("Test case " ++ key ++ " not found"))
              else
                let results := (pyGet gt "results").getD (.arr [])
                if pyTruthy results = false then
                  .error (.valueError ("Test case " ++ key ++ " not found"))
                else
                  match pyIndexZero results with
                  | some r => .ok r
                  | none => .error (.runtimeError xrayUnexpectedMsg)
          | _ => .error (.runtimeError xrayUnexpectedMsg)
      | _ => .error (.runtimeError xrayUnexpectedMsg)
  | _ => .error (.runtimeError xrayUnexpectedMsg)

/-- Embeds `XrayClient.get_test_case` (lines 97-190): validate the key,
ensure a valid token (auth failures propagate raw — the call sits before
the `try`), then POST the GraphQL query with `jql = "key = <key>"` and
`limit = 100` and extract the result.  The bearer token presented is the
current `self._token` (f-string renders `None` as `"None"`; unreachable
after a successful ensure). -/
def get_test_case (expires_in : Int) (key : String) (st : XrayState)
    (now : Int) (env : XrayEnv) : XrayOutcome :=
  if is_valid_issue_key key = false then
    { result := .error (.valueError ("Invalid test case key format: " ++ key)),
      state := st, calls := [] }
  else
    let fo := ensure_valid_token expires_in st now env.authResp
    match fo.result with
    | .error e => { result := .error e, state := fo.state, calls := fo.calls }
    | .ok _ =>
        let st1 := fo.state
        let tokenStr := st1.token.getD "None"
        let calls := fo.calls ++ [XrayReq.graphqlQuery tokenStr ("key = " ++ key) 100]
        match env.queryResp with
        | .httpError n =>
            { result := .error (xrayStatusError key n), state := st1, calls }
        | .netError m =>
            { result := .error (.runtimeError ("Network error fetching test case: " ++ m)),
              state := st1, calls }
        | .success body => { result := extractTest key body, state := st1, calls }

/-! ### Tool gateway (`jira_mcp_server.py` / `xray_mcp_server.py`) -/

/-- The shared `try/except` shape of both tool functions:
`except (ValueError, PermissionError, RuntimeError) as e: raise ToolError(str(e))`
followed by `except Exception: raise`. -/
def toolWrap {α : Type} (r : Except PyError α) : Except PyError α :=
  match r with
  | .ok v => .ok v
  | .error (.valueError m) => .error (.toolError m)
  | .error (.permissionError m) => .error (.toolError m)
  | .error (.runtimeError m) => .error (.toolError m)
  | .error e => .error e

/-- Embeds the `get_jira_issue` tool (lines 20-40 of
`jira_mcp_server.py`); the client is called with the default
`include_all_fields=True`. -/
def get_jira_issue (base_url issue_key : String) (env : JiraEnv) : JiraOutcome :=
  let o := get_issue base_url issue_key true env
  { result := toolWrap o.result, calls := o.calls }

/-- Embeds the `get_xray_test_case` tool (lines 20-38 of
`xray_mcp_server.py`). -/
def get_xray_test_case (expires_in : Int) (key : String) (st : XrayState)
    (now : Int) (env : XrayEnv) : XrayOutcome :=
  let o := get_test_case expires_in key st now env
  { result := toolWrap o.result, state := o.state, calls := o.calls }

/-! ### Interleaving model of the double-checked token refresh (spec §5)

Two concurrent `get_test_case` calls interleave on asyncio's single
execution context: code between `await` points runs atomically.  The
await points of `_ensure_valid_token` are the lock acquisition and the
token POST inside `_fetch_token`; the data query is a further await.
Each task below runs: fast-path check, lock acquisition, double check,
(possibly) fetch, then the query, recording the bearer token it
presents.  `time.time()` is held fixed at `now` for the duration. -/

/-- Program counter of one task. -/
inductive TaskPC where
  | start
  | waitLock
  | locked
  | fetching
  | query
  | done
deriving DecidableEq

/-- Shared state of the two interleaved calls: the client's token fields,
the `asyncio.Lock` holder, both program counters, the number of
authentication POSTs issued so far, and the bearer token each task's
query presented (`none` until the query runs). -/
structure CState where
  token : Option String
  exp : Int
  lockBy : Option Bool
  pc0 : TaskPC
  pc1 : TaskPC
  nAuth : Nat
  q0 : Option String
  q1 : Option String
deriving DecidableEq

/-- Program counter of task `i`. -/
def CState.pcOf (s : CState) : Bool → TaskPC
  | true => s.pc1
  | false => s.pc0

/-- Set the program counter of task `i`. -/
def CState.setPc (s : CState) : Bool → TaskPC → CState
  | true, p => { s with pc1 := p }
  | false, p => { s with pc0 := p }

/-- Record the bearer token presented by task `i`'s query. -/
def CState.setQ (s : CState) : Bool → String → CState
  | true, t => { s with q1 := some t }
  | false, t => { s with q0 := some t }

/-- One atomic step of task `i` (no-op when it is `done`, or blocked on
the lock).  `body` is the text of the (successful) authentication
response; the fetch stores `parseToken body` and the buffered expiry,
exactly as `fetch_token` does. -/
def step (expires_in now : Int) (body : String) (s : CState) (i : Bool) : CState :=
  match s.pcOf i with
  | .start =>
      if tokenIsTruthy s.token ∧ now < s.exp then s.setPc i .query
      else s.setPc i .waitLock
  | .waitLock =>
      match s.lockBy with
      | none => { s.setPc i .locked with lockBy := some i }
      | some _ => s
  | .locked =>
      if ¬ tokenIsTruthy s.token ∨ now ≥ s.exp then
        { s.setPc i .fetching with nAuth := s.nAuth + 1 }
      else { s.setPc i .query with lockBy := none }
  | .fetching =>
      { s.setPc i .query with
          token := some (parseToken body),
          exp := now + expires_in - TOKEN_REFRESH_BUFFER_SECONDS,
          lockBy := none }
  | .query => (s.setPc i .done).setQ i (s.token.getD "None")
  | .done => s

/-- Run a schedule (list of task choices). -/
def run (expires_in now : Int) (body : String) : List Bool → CState → CState
  | [], s => s
  | i :: rest, s => run expires_in now body rest (step expires_in now body s i)

/-- Both calls are issued when no token is cached: fresh client state. -/
def initCState : CState :=
  { token := none, exp := 0, lockBy := none, pc0 := .start, pc1 := .start,
    nAuth := 0, q0 := none, q1 := none }

/-- Invariant of the two-task interleaving: the token cell only ever
holds the fetched token; the lock discipline is respected; a task at
`fetching` has observed an absent/expired token; the number of
authentication POSTs so far is determined by the fetch in flight and the
token cell; tasks at or past their query see the fetched token; and a
finished task queried with it. -/
def C7Inv (expires_in now : Int) (body : String) (s : CState) : Prop :=
  (s.token = none ∨
    (s.token = some (parseToken body) ∧
     s.exp = now + expires_in - TOKEN_REFRESH_BUFFER_SECONDS)) ∧
  ((s.pc0 = .locked ∨ s.pc0 = .fetching) → s.lockBy = some false) ∧
  ((s.pc1 = .locked ∨ s.pc1 = .fetching) → s.lockBy = some true) ∧
  (s.pc0 = .fetching → s.token = none) ∧
  (s.pc1 = .fetching → s.token = none) ∧
  (s.nAuth = (if s.pc0 = .fetching then 1 else 0)
      + (if s.pc1 = .fetching then 1 else 0)
      + (if s.token = none then 0 else 1)) ∧
  ((s.pc0 = .query ∨ s.pc0 = .done) → s.token = some (parseToken body)) ∧
  ((s.pc1 = .query ∨ s.pc1 = .done) → s.token = some (parseToken body)) ∧
  (s.pc0 = .done → s.q0 = some (parseToken body)) ∧
  (s.pc1 = .done → s.q1 = some (parseToken body))

/-! ### Spec-side definitions (quoted for comparison with the source) -/

/-- Modelled from the spec (§4.2): the single-object reduction rule —
"an object is reduced to its `name`, else `displayName`, else `value`,
else passed through unchanged" — keyed on *presence*, which C3 claims is
also applied element-wise to lists of objects. -/
def specObjectReduce (v : JVal) : JVal :=
  match v with
  | .obj d =>
      match pyGet d "name" with
      | some n => n
      | none =>
        match pyGet d "displayName" with
        | some dn => dn
        | none =>
          match pyGet d "value" with
          | some w => w
          | none => .obj d
  | w => w

/-- `sub` occurs as a substring of `m`. -/
def containsStr (m sub : String) : Prop := ∃ a b, m = (a ++ sub) ++ b

/-! ## Theorems -/

/-! ### Shared helper lemmas -/

theorem jAssocGet_dictInsert_self (d : List (JVal × JVal)) (k v : JVal) :
    jAssocGet (dictInsert d k v) k = some v := by
  induction d with
  | nil => simp [dictInsert, jAssocGet]
  | cons p rest ih =>
    by_cases hp : p.1 = k
    · simp [dictInsert, List.any_cons, hp, jAssocGet]
    · by_cases ha : rest.any (fun q => decide (q.1 = k))
      · simpa [dictInsert, List.any_cons, hp, ha, jAssocGet] using ih
      · simpa [dictInsert, List.any_cons, hp, ha, jAssocGet] using ih

theorem jAssocGet_map_replace_ne (d : List (JVal × JVal)) (k v key : JVal)
    (hne : k ≠ key) :
    jAssocGet (d.map (fun p => if p.1 = k then (k, v) else p)) key
      = jAssocGet d key := by
  induction d with
  | nil => simp [jAssocGet]
  | cons p rest ih =>
    obtain ⟨a, b⟩ := p
    simp only [List.map_cons]
    split_ifs with hp
    · have ha : a ≠ key := by
        have : a = k := hp
        rw [this]; exact hne
      simp only [jAssocGet]
      rw [if_neg hne, if_neg ha]
      exact ih
    · simp only [jAssocGet]
      by_cases hpkey : a = key
      · rw [if_pos hpkey, if_pos hpkey]
      · rw [if_neg hpkey, if_neg hpkey]
        exact ih

theorem jAssocGet_append_single_ne (d : List (JVal × JVal)) (k v key : JVal)
    (hne : k ≠ key) :
    jAssocGet (d ++ [(k, v)]) key = jAssocGet d key := by
  induction d with
  | nil => simp [jAssocGet, hne]
  | cons p rest ih =>
    by_cases hpkey : p.1 = key
    · simp [jAssocGet, hpkey]
    · simp [jAssocGet, hpkey, ih]

theorem jAssocGet_dictInsert_ne (d : List (JVal × JVal)) (k v key : JVal)
    (hne : k ≠ key) : jAssocGet (dictInsert d k v) key = jAssocGet d key := by
  unfold dictInsert
  by_cases ha : d.any (fun q => decide (q.1 = k))
  · simpa [ha] using jAssocGet_map_replace_ne d k v key hne
  · simpa [ha] using jAssocGet_append_single_ne d k v key hne

theorem buildAllFields_lookup_preserved (fmap : List (JVal × JVal)) :
    ∀ (flds : List (String × JVal)) (acc acc' : List (JVal × JVal)) (key : JVal),
    buildAllFields fmap flds acc = some acc' →
    (∀ p ∈ flds, resolveName fmap p.1 ≠ key) →
    jAssocGet acc' key = jAssocGet acc key := by
  intro flds
  induction flds with
  | nil =>
    intro acc acc' key h _
    simp only [buildAllFields, Option.some.injEq] at h
    rw [h]
  | cons p rest ih =>
    intro acc acc' key h hall
    obtain ⟨fid, v⟩ := p
    simp only [buildAllFields] at h
    cases haf : addField fmap acc fid v with
    | none => rw [haf] at h; cases h
    | some acc2 =>
      rw [haf] at h
      have hkey : resolveName fmap fid ≠ key := hall (fid, v) (List.mem_cons_self _ _)
      have hstep : jAssocGet acc2 key = jAssocGet acc key := by
        unfold addField at haf
        split_ifs at haf with hc
        · cases haf; rfl
        · cases hsv : simplifyValue v with
          | none => rw [hsv] at haf; cases haf
          | some sv =>
            rw [hsv] at haf
            cases haf
            exact jAssocGet_dictInsert_ne acc (resolveName fmap fid) sv key hkey
      have htail := ih acc2 acc' key h (fun q hq => hall q (List.mem_cons_of_mem _ hq))
      rw [htail, hstep]

theorem buildAllFields_lookup (fmap : List (JVal × JVal)) :
    ∀ (flds : List (String × JVal)) (acc acc' : List (JVal × JVal))
      (fid : String) (v : JVal),
    buildAllFields fmap flds acc = some acc' →
    (fid, v) ∈ flds →
    (flds.map Prod.fst).Nodup →
    (∀ p ∈ flds, p.1 ≠ fid → resolveName fmap p.1 ≠ resolveName fmap fid) →
    canonicalNames.any (fun c => decide (resolveName fmap fid = JVal.str c)) = false →
    ∃ sv, simplifyValue v = some sv ∧
      jAssocGet acc' (resolveName fmap fid) = some sv := by
  intro flds
  induction flds with
  | nil => intro _ _ _ _ _ hmem; cases hmem
  | cons p rest ih =>
    intro acc acc' fid v h hmem hnodup huniq hnc
    obtain ⟨g, w⟩ := p
    simp only [buildAllFields] at h
    rcases List.mem_cons.mp hmem with heq | hmem2
    · have hg : g = fid := congrArg Prod.fst heq.symm
      have hw : w = v := congrArg Prod.snd heq.symm
      rw [← hg] at hnc huniq ⊢
      rw [← hw]
      have hfid : g ∉ rest.map Prod.fst := by
        simp only [List.map_cons, List.nodup_cons] at hnodup
        exact hnodup.1
      rw [show addField fmap acc g w =
            (match simplifyValue w with
             | none => none
             | some sv => some (dictInsert acc (resolveName fmap g) sv)) by
          unfold addField; rw [if_neg (by rw [hnc]; exact Bool.false_ne_true)]] at h
      cases hsv : simplifyValue w with
      | none => rw [hsv] at h; cases h
      | some sv =>
        rw [hsv] at h
        refine ⟨sv, rfl, ?_⟩
        have hpres : jAssocGet acc' (resolveName fmap g)
            = jAssocGet (dictInsert acc (resolveName fmap g) sv) (resolveName fmap g) := by
          apply buildAllFields_lookup_preserved fmap rest _ _ _ h
          intro q hq
          have hqg : q.1 ≠ g := by
            intro hq1
            exact hfid (hq1 ▸ List.mem_map_of_mem Prod.fst hq)
          exact huniq q (List.mem_cons_of_mem _ hq) hqg
        rw [hpres, jAssocGet_dictInsert_self]
    · have hg : g ≠ fid := by
        intro hgf
        have hmemf : fid ∈ rest.map Prod.fst := List.mem_map_of_mem Prod.fst hmem2
        simp only [List.map_cons, List.nodup_cons] at hnodup
        exact hnodup.1 (hgf ▸ hmemf)
      cases haf : addField fmap acc g w with
      | none => rw [haf] at h; cases h
      | some acc2 =>
        rw [haf] at h
        refine ih acc2 acc' fid v h hmem2 ?_ ?_ hnc
        · simp only [List.map_cons, List.nodup_cons] at hnodup
          exact hnodup.2
        · intro q hq hq1
          exact huniq q (List.mem_cons_of_mem _ hq) hq1

theorem simplifyItems_objs :
    ∀ (items : List JVal), (∀ x ∈ items, ∃ d, x = JVal.obj d) →
    simplifyItems items
      = some (items.map fun x => (simplifyListItem x).getD x) := by
  intro items
  induction items with
  | nil => intro _; rfl
  | cons x rest ih =>
    intro hx
    obtain ⟨d, hd⟩ := hx x (List.mem_cons_self _ _)
    subst hd
    have hrest := ih (fun y hy => hx y (List.mem_cons_of_mem _ hy))
    cases hq : simplifyListItem (JVal.obj d) with
    | none => simp [simplifyListItem] at hq
    | some q => simp [simplifyItems, hq, hrest]

theorem get_issue_success_shape
    (base key : String) (hk : is_valid_issue_key key = true)
    (bd flds : List (String × JVal)) (meta : JVal)
    (fmap af : List (JVal × JVal))
    (hfields : pyGet bd "fields" = some (JVal.obj flds))
    (hmeta : buildFieldMap meta = some fmap)
    (haf : buildAllFields fmap flds [] = some af) :
    get_issue base key true ⟨.success (.obj bd), .success meta⟩ =
      { result := .ok ⟨basicInfo bd flds, some af⟩,
        calls := [.issueGet (base ++ "/rest/api/3/issue/" ++ key),
                  .fieldsGet (base ++ "/rest/api/3/field")] } := by
  unfold get_issue
  rw [hk]
  simp only [Bool.true_eq_false, if_false, hmeta, hfields, Option.getD_some, haf,
    if_true]

/-! ### Claim C1 — key validation before any network call -/

/-- Claim C1, counterexample: the string `"PROJ-123\n"` does not match
the pattern `^[A-Z][A-Z0-9]*-[0-9]+$`, yet both operations accept it
(Python's `re.match` lets `$` also match just before a trailing newline)
and attempt network calls: the issue GET, resp. the token POST, appears
in the request trace instead of an InvalidInput failure. -/
theorem invalid_key_claim_cex :
    matchesKeyPattern "PROJ-123\n" = false ∧
    is_valid_issue_key "PROJ-123\n" = true ∧
    (get_issue "https://jira" "PROJ-123\n" true
        ⟨.netError "refused", .netError "refused"⟩).calls ≠ [] ∧
    (get_test_case 86400 "PROJ-123\n" ⟨none, 0⟩ 0
        ⟨.netError "refused", .netError "refused"⟩).calls ≠ [] := by decide

/-- Claim C1 (amended): for every input string that neither matches
`^[A-Z][A-Z0-9]*-[0-9]+$` nor is such a match followed by one trailing
newline, both `get_issue` and `get_test_case` fail with the InvalidInput
`ValueError` before any network call is attempted (empty request trace,
so no token fetch and no HTTP request), leaving the token state
untouched. -/
theorem invalid_key_rejected_before_network (s : String)
    (h1 : matchesKeyPattern s = false)
    (h2 : strEndsNewline s = true → matchesKeyPattern (dropLastChar s) = false) :
    ∀ (base : String) (jenv : JiraEnv) (expires_in now : Int) (st : XrayState)
      (xenv : XrayEnv),
      (get_issue base s true jenv).result
          = .error (.valueError ("Invalid issue key format: " ++ s)) ∧
      (get_issue base s true jenv).calls = [] ∧
      (get_test_case expires_in s st now xenv).result
          = .error (.valueError ("Invalid test case key format: " ++ s)) ∧
      (get_test_case expires_in s st now xenv).calls = [] ∧
      (get_test_case expires_in s st now xenv).state = st := by
  have hv : is_valid_issue_key s = false := by
    unfold is_valid_issue_key
    rw [h1]
    cases hE : strEndsNewline s with
    | false => simp
    | true => simp [h2 hE]
  intro base jenv expires_in now st xenv
  unfold get_issue get_test_case
  rw [hv]
  simp

/-- Witness for C1's amended theorem at the spec's example inputs. -/
theorem invalid_key_rejected_before_network_witness :
    (get_issue "https://jira" "abc" true ⟨.netError "x", .netError "x"⟩).calls = [] ∧
    (get_test_case 86400 "123-45" ⟨none, 0⟩ 0 ⟨.netError "x", .netError "x"⟩).calls = [] ∧
    (get_issue "https://jira" "" true ⟨.netError "x", .netError "x"⟩).result
      = .error (.valueError "Invalid issue key format: ") :=
  ⟨(invalid_key_rejected_before_network "abc" (by decide) (by decide) "https://jira"
      ⟨.netError "x", .netError "x"⟩ 86400 0 ⟨none, 0⟩ ⟨.netError "x", .netError "x"⟩).2.1,
   (invalid_key_rejected_before_network "123-45" (by decide) (by decide) "https://jira"
      ⟨.netError "x", .netError "x"⟩ 86400 0 ⟨none, 0⟩ ⟨.netError "x", .netError "x"⟩).2.2.2.1,
   (invalid_key_rejected_before_network "" (by decide) (by decide) "https://jira"
      ⟨.netError "x", .netError "x"⟩ 86400 0 ⟨none, 0⟩ ⟨.netError "x", .netError "x"⟩).1⟩

/-! ### Claim C2 — `all_fields` renaming and value simplification -/

/-- Claim C2: in `get_issue`, every issue field whose metadata-resolved
display name is not one of the canonical display names (case-sensitive)
appears in the returned `all_fields` mapping under its resolved name,
with its value simplified: null stays null, an object is reduced to its
`name`, else `displayName`, else `value` entry (by key presence), else
passed through, and scalars pass through unchanged.  Hypotheses: the
issue's `fields` keys are unique (JSON object), no other field resolves
to the same display name (so the dict entry is this field's), and the
`all_fields` loop completes. -/
theorem get_issue_all_fields_resolved
    (base key : String) (hk : is_valid_issue_key key = true)
    (bd flds : List (String × JVal)) (meta : JVal)
    (fmap af : List (JVal × JVal))
    (hfields : pyGet bd "fields" = some (JVal.obj flds))
    (hmeta : buildFieldMap meta = some fmap)
    (haf : buildAllFields fmap flds [] = some af)
    (fid : String) (v : JVal) (hmem : (fid, v) ∈ flds)
    (hnodup : (flds.map Prod.fst).Nodup)
    (huniq : ∀ p ∈ flds, p.1 ≠ fid → resolveName fmap p.1 ≠ resolveName fmap fid)
    (hnc : canonicalNames.any (fun c => decide (resolveName fmap fid = JVal.str c)) = false) :
    ∃ sv, simplifyValue v = some sv ∧
      (get_issue base key true ⟨.success (.obj bd), .success meta⟩).result
        = .ok ⟨basicInfo bd flds, some af⟩ ∧
      jAssocGet af (resolveName fmap fid) = some sv ∧
      (v = .null → sv = .null) ∧
      (∀ d, v = .obj d → sv = specObjectReduce (.obj d)) ∧
      (∀ b, v = .bool b → sv = v) ∧
      (∀ n, v = .num n → sv = v) ∧
      (∀ s, v = .str s → sv = v) := by
  obtain ⟨sv, hsv, hlook⟩ :=
    buildAllFields_lookup fmap flds [] af fid v haf hmem hnodup huniq hnc
  refine ⟨sv, hsv, ?_, hlook, ?_, ?_, ?_, ?_, ?_⟩
  · rw [get_issue_success_shape base key hk bd flds meta fmap af hfields hmeta haf]
  · rintro rfl
    simp only [simplifyValue, Option.some.injEq] at hsv
    exact hsv.symm
  · rintro d rfl
    simp only [simplifyValue, Option.some.injEq] at hsv
    rw [← hsv]
    unfold specObjectReduce
    rfl
  · rintro b rfl
    simp only [simplifyValue, Option.some.injEq] at hsv
    exact hsv.symm
  · rintro n rfl
    simp only [simplifyValue, Option.some.injEq] at hsv
    exact hsv.symm
  · rintro s rfl
    simp only [simplifyValue, Option.some.injEq] at hsv
    exact hsv.symm

/-- Witness for C2 at the spec's example: metadata
`{"customfield_100": "Severity"}` and issue field
`customfield_100: {"name": "High"}` give `all_fields["Severity"] == "High"`. -/
theorem get_issue_all_fields_resolved_witness :
    (get_issue "https://jira" "PROJ-1" true
        ⟨.success (.obj [("key", .str "PROJ-1"),
            ("fields", .obj [("customfield_100", .obj [("name", .str "High")])])]),
         .success (.arr [.obj [("id", .str "customfield_100"),
            ("name", .str "Severity")]])⟩).result
      = .ok ⟨basicInfo
              [("key", .str "PROJ-1"),
               ("fields", .obj [("customfield_100", .obj [("name", .str "High")])])]
              [("customfield_100", .obj [("name", .str "High")])],
             some [(.str "Severity", .str "High")]⟩ ∧
    jAssocGet [((JVal.str "Severity"), JVal.str "High")] (.str "Severity")
      = some (.str "High") := by
  obtain ⟨sv, hsv, hres, hlook, -⟩ :=
    get_issue_all_fields_resolved "https://jira" "PROJ-1" (by decide)
      [("key", .str "PROJ-1"),
       ("fields", .obj [("customfield_100", .obj [("name", .str "High")])])]
      [("customfield_100", .obj [("name", .str "High")])]
      (.arr [.obj [("id", .str "customfield_100"), ("name", .str "Severity")]])
      [(.str "customfield_100", .str "Severity")]
      [(.str "Severity", .str "High")]
      (by decide) (by decide) (by decide)
      "customfield_100" (.obj [("name", .str "High")])
      (by decide) (by decide) (by decide) (by decide)
  have h2 := hsv
  rw [show simplifyValue (.obj [("name", .str "High")]) = some (.str "High") from rfl] at h2
  injection h2 with h3
  subst h3
  exact ⟨hres, hlook⟩

/-! ### Claim C3 — element-wise reduction of list-valued fields -/

/-- Claim C3, counterexample: for the field value `[{"name": ""}]` (a
list of objects), `get_issue` returns the *raw* list in `all_fields`,
because the element reduction chains Python `or` over the looked-up
values and a present-but-falsy `name` (the empty string) is skipped,
whereas the single-object reduction used for dicts keys on *presence*
and would give `[""]`.  So the list is not mapped "with the same
reduction used for single objects". -/
theorem list_reduction_claim_cex :
    (get_issue "https://jira" "PROJ-1" true
        ⟨.success (.obj [("fields", .obj [("f1", .arr [.obj [("name", .str "")]])])]),
         .success (.arr [])⟩).result
      = .ok ⟨basicInfo [("fields", .obj [("f1", .arr [.obj [("name", .str "")]])])]
               [("f1", .arr [.obj [("name", .str "")]])],
             some [(.str "f1", .arr [.obj [("name", .str "")]])]⟩ ∧
    List.map specObjectReduce [JVal.obj [("name", .str "")]] = [.str ""] ∧
    JVal.arr [.obj [("name", .str "")]] ≠ JVal.arr [.str ""] := by decide

/-- Claim C3 (amended): in `get_issue`'s `all_fields` simplification, a
field value that is a non-empty list of objects is mapped element-wise
by reducing each element to the first *truthy* value among its `name`,
`displayName` and `value` entries, falling back to the raw element when
none of the three is present and truthy (`simplifyListItem`); a
present-but-falsy entry (null, `""`, `0`, `false`, empty list/object) is
passed over rather than used. -/
theorem get_issue_list_fields_reduced
    (base key : String) (hk : is_valid_issue_key key = true)
    (bd flds : List (String × JVal)) (meta : JVal)
    (fmap af : List (JVal × JVal))
    (hfields : pyGet bd "fields" = some (JVal.obj flds))
    (hmeta : buildFieldMap meta = some fmap)
    (haf : buildAllFields fmap flds [] = some af)
    (fid : String) (items : List JVal) (hmem : (fid, JVal.arr items) ∈ flds)
    (hne : items ≠ []) (hobjs : ∀ x ∈ items, ∃ d, x = JVal.obj d)
    (hnodup : (flds.map Prod.fst).Nodup)
    (huniq : ∀ p ∈ flds, p.1 ≠ fid → resolveName fmap p.1 ≠ resolveName fmap fid)
    (hnc : canonicalNames.any (fun c => decide (resolveName fmap fid = JVal.str c)) = false) :
    (get_issue base key true ⟨.success (.obj bd), .success meta⟩).result
      = .ok ⟨basicInfo bd flds, some af⟩ ∧
    jAssocGet af (resolveName fmap fid)
      = some (.arr (items.map fun x => (simplifyListItem x).getD x)) := by
  obtain ⟨sv, hsv, hlook⟩ :=
    buildAllFields_lookup fmap flds [] af fid (.arr items) haf hmem hnodup huniq hnc
  constructor
  · rw [get_issue_success_shape base key hk bd flds meta fmap af hfields hmeta haf]
  · cases items with
    | nil => exact absurd rfl hne
    | cons x rest =>
      obtain ⟨d, hd⟩ := hobjs x (List.mem_cons_self _ _)
      subst hd
      simp only [simplifyValue] at hsv
      rw [simplifyItems_objs (JVal.obj d :: rest) hobjs] at hsv
      injection hsv with h2
      rw [← h2] at hlook
      exact hlook

/-- Witness for C3's amended theorem: `[{"name": "A"}, {"value": "B"}]`
reduces element-wise to `["A", "B"]`. -/
theorem get_issue_list_fields_reduced_witness :
    (get_issue "https://jira" "PROJ-2" true
        ⟨.success (.obj [("fields", .obj
            [("f2", .arr [.obj [("name", .str "A")], .obj [("value", .str "B")]])])]),
         .success (.arr [])⟩).result
      = .ok ⟨basicInfo
               [("fields", .obj
                  [("f2", .arr [.obj [("name", .str "A")], .obj [("value", .str "B")]])])]
               [("f2", .arr [.obj [("name", .str "A")], .obj [("value", .str "B")]])],
             some [(.str "f2", .arr [.str "A", .str "B"])]⟩ ∧
    jAssocGet [((JVal.str "f2"), JVal.arr [.str "A", .str "B"])] (.str "f2")
      = some (.arr [.str "A", .str "B"]) :=
  get_issue_list_fields_reduced "https://jira" "PROJ-2" (by decide)
    [("fields", .obj [("f2", .arr [.obj [("name", .str "A")], .obj [("value", .str "B")]])])]
    [("f2", .arr [.obj [("name", .str "A")], .obj [("value", .str "B")]])]
    (.arr []) [] [(.str "f2", .arr [.str "A", .str "B"])]
    (by decide) (by decide) (by decide)
    "f2" [.obj [("name", .str "A")], .obj [("value", .str "B")]]
    (by decide) (by decide)
    (by
      intro x hx
      simp only [List.mem_cons, List.not_mem_nil, or_false] at hx
      rcases hx with rfl | rfl
      · exact ⟨_, rfl⟩
      · exact ⟨_, rfl⟩)
    (by decide) (by decide) (by decide)

/-! ### Claim C10 — fields missing from the metadata listing -/

/-- Claim C10, counterexample: the issue field with raw id `"Status"`
does not appear in the (empty) field-metadata listing, yet it is
*dropped*: its raw id resolves to itself, which matches the canonical
display name `"Status"` case-sensitively, so the loop skips it and
`all_fields` comes back empty. -/
theorem unmapped_id_claim_cex :
    (get_issue "https://jira" "PROJ-1" true
        ⟨.success (.obj [("fields", .obj [("Status", .num 5)])]),
         .success (.arr [])⟩).result
      = .ok ⟨basicInfo [("fields", .obj [("Status", .num 5)])]
               [("Status", .num 5)], some []⟩ ∧
    buildFieldMap (.arr []) = some [] ∧
    jAssocGet ([] : List (JVal × JVal)) (.str "Status") = none := by decide

/-- Claim C10 (amended): an issue field whose id does not appear in the
field-metadata listing and whose raw id is not itself one of the
canonical display names is not dropped: it appears in `all_fields`
keyed by its raw field id, with the same value-simplification rule
applied (hypotheses on key uniqueness as in C2). -/
theorem get_issue_unmapped_id_kept
    (base key : String) (hk : is_valid_issue_key key = true)
    (bd flds : List (String × JVal)) (meta : JVal)
    (fmap af : List (JVal × JVal))
    (hfields : pyGet bd "fields" = some (JVal.obj flds))
    (hmeta : buildFieldMap meta = some fmap)
    (haf : buildAllFields fmap flds [] = some af)
    (fid : String) (v : JVal) (hmem : (fid, v) ∈ flds)
    (hunmapped : jAssocGet fmap (.str fid) = none)
    (hnotcanon : fid ∉ canonicalNames)
    (hnodup : (flds.map Prod.fst).Nodup)
    (huniq : ∀ p ∈ flds, p.1 ≠ fid → resolveName fmap p.1 ≠ .str fid) :
    ∃ sv, simplifyValue v = some sv ∧
      (get_issue base key true ⟨.success (.obj bd), .success meta⟩).result
        = .ok ⟨basicInfo bd flds, some af⟩ ∧
      jAssocGet af (.str fid) = some sv := by
  have hres : resolveName fmap fid = .str fid := by
    unfold resolveName
    rw [hunmapped]
    rfl
  have hnc : canonicalNames.any (fun c => decide (resolveName fmap fid = JVal.str c)) = false := by
    rw [hres]
    rw [List.any_eq_false]
    intro c hc
    simp only [decide_eq_true_eq, JVal.str.injEq]
    intro h
    exact hnotcanon (h ▸ hc)
  have huniq2 : ∀ p ∈ flds, p.1 ≠ fid → resolveName fmap p.1 ≠ resolveName fmap fid := by
    intro p hp h1
    rw [hres]
    exact huniq p hp h1
  obtain ⟨sv, hsv, hlook⟩ :=
    buildAllFields_lookup fmap flds [] af fid v haf hmem hnodup huniq2 hnc
  rw [hres] at hlook
  refine ⟨sv, hsv, ?_, hlook⟩
  rw [get_issue_success_shape base key hk bd flds meta fmap af hfields hmeta haf]

/-- Witness for C10's amended theorem: field `customfield_9: 7` with an
empty metadata listing survives under its raw id. -/
theorem get_issue_unmapped_id_kept_witness :
    (get_issue "https://jira" "PROJ-3" true
        ⟨.success (.obj [("fields", .obj [("customfield_9", .num 7)])]),
         .success (.arr [])⟩).result
      = .ok ⟨basicInfo [("fields", .obj [("customfield_9", .num 7)])]
               [("customfield_9", .num 7)], some [(.str "customfield_9", .num 7)]⟩ ∧
    jAssocGet [((JVal.str "customfield_9"), JVal.num 7)] (.str "customfield_9")
      = some (.num 7) := by
  obtain ⟨sv, hsv, hres, hlook⟩ :=
    get_issue_unmapped_id_kept "https://jira" "PROJ-3" (by decide)
      [("fields", .obj [("customfield_9", .num 7)])]
      [("customfield_9", .num 7)]
      (.arr []) [] [(.str "customfield_9", .num 7)]
      (by decide) (by decide) (by decide)
      "customfield_9" (.num 7)
      (by decide) (by decide) (by decide) (by decide) (by decide)
  have h2 := hsv
  rw [show simplifyValue (.num 7) = some (.num 7) from rfl] at h2
  injection h2 with h3
  subst h3
  exact ⟨hres, hlook⟩

/-! ### Claim C4 — HTTP error mapping -/

/-- Claim C4: for both clients' data calls, an upstream 404 yields the
NotFound `ValueError` whose message contains the requested key, 401 and
403 yield `PermissionError`, any other (non-2xx) status yields a
`RuntimeError` carrying the status code, a connection/timeout failure
yields a `RuntimeError` carrying the network error, and validation
failures propagate unchanged.  The Xray conjuncts run with a valid
cached token, so the data POST is the failing call. -/
theorem http_error_taxonomy
    (base key : String) (hk : is_valid_issue_key key = true)
    (n : Nat) (hn404 : n ≠ 404) (hn401 : n ≠ 401) (hn403 : n ≠ 403)
    (m : String) (fe : HttpResult)
    (expires_in now : Int) (st : XrayState) (t : String)
    (ht : st.token = some t) (htne : t ≠ "") (hnow : now < st.token_expires_at)
    (aresp : AuthResult) :
    ((get_issue base key true ⟨.httpError 404, fe⟩).result
        = .error (.valueError ("Issue " ++ key ++ " does not exist")) ∧
     containsStr ("Issue " ++ key ++ " does not exist") key) ∧
    ((get_issue base key true ⟨.httpError 401, fe⟩).result
        = .error (.permissionError "Authentication failed. Check Jira credentials.")) ∧
    ((get_issue base key true ⟨.httpError 403, fe⟩).result
        = .error (.permissionError ("Access forbidden to issue " ++ key))) ∧
    ((get_issue base key true ⟨.httpError n, fe⟩).result
        = .error (.runtimeError ("Failed to fetch issue " ++ key ++ ": HTTP " ++ toString n)) ∧
     containsStr ("Failed to fetch issue " ++ key ++ ": HTTP " ++ toString n) (toString n)) ∧
    ((get_issue base key true ⟨.netError m, fe⟩).result
        = .error (.runtimeError ("Network error fetching issue: " ++ m)) ∧
     containsStr ("Network error fetching issue: " ++ m) m) ∧
    (∀ s, is_valid_issue_key s = false →
       (get_issue base s true ⟨.httpError n, fe⟩).result
          = .error (.valueError ("Invalid issue key format: " ++ s))) ∧
    ((get_test_case expires_in key st now ⟨aresp, .httpError 404⟩).result
        = .error (.valueError ("Test case " ++ key ++ " does not exist")) ∧
     containsStr ("Test case " ++ key ++ " does not exist") key) ∧
    ((get_test_case expires_in key st now ⟨aresp, .httpError 401⟩).result
        = .error (.permissionError "Authentication failed. Check Xray credentials.")) ∧
    ((get_test_case expires_in key st now ⟨aresp, .httpError 403⟩).result
        = .error (.permissionError ("Access forbidden to test case " ++ key))) ∧
    ((get_test_case expires_in key st now ⟨aresp, .httpError n⟩).result
        = .error (.runtimeError ("Failed to fetch test case " ++ key ++ ": HTTP " ++ toString n))) ∧
    ((get_test_case expires_in key st now ⟨aresp, .netError m⟩).result
        = .error (.runtimeError ("Network error fetching test case: " ++ m)) ∧
     containsStr ("Network error fetching test case: " ++ m) m) := by
  have hfast : ensure_valid_token expires_in st now aresp
      = { result := .ok (), state := st, calls := [] } := by
    unfold ensure_valid_token
    rw [if_pos]
    constructor
    · rw [ht]; simp [tokenIsTruthy, htne]
    · exact hnow
  have hstatus : ∀ k' : String, jiraStatusError k' n
      = .runtimeError ("Failed to fetch issue " ++ k' ++ ": HTTP " ++ toString n) := by
    intro k'
    unfold jiraStatusError
    rw [if_neg hn404, if_neg hn401, if_neg hn403]
  have hxstatus : xrayStatusError key n
      = .runtimeError ("Failed to fetch test case " ++ key ++ ": HTTP " ++ toString n) := by
    unfold xrayStatusError
    rw [if_neg hn404, if_neg hn401, if_neg hn403]
  refine ⟨⟨?_, "Issue ", " does not exist", rfl⟩, ?_, ?_, ⟨?_, ?_⟩, ⟨?_, ?_⟩, ?_, ⟨?_, "Test case ", " does not exist", rfl⟩, ?_, ?_, ?_, ⟨?_, ?_⟩⟩
  · unfold get_issue; rw [hk]; simp [jiraStatusError]
  · unfold get_issue; rw [hk]; simp [jiraStatusError]
  · unfold get_issue; rw [hk]; simp [jiraStatusError]
  · unfold get_issue; rw [hk]; simp [hstatus]
  · exact ⟨"Failed to fetch issue " ++ key ++ ": HTTP ", "", by rw [String.append_empty]⟩
  · unfold get_issue; rw [hk]; simp
  · exact ⟨"Network error fetching issue: ", "", by rw [String.append_empty]⟩
  · intro s hs; unfold get_issue; rw [hs]; simp
  · unfold get_test_case; rw [hk]; simp [hfast, xrayStatusError]
  · unfold get_test_case; rw [hk]; simp [hfast, xrayStatusError]
  · unfold get_test_case; rw [hk]; simp [hfast, xrayStatusError]
  · unfold get_test_case; rw [hk]; simp [hfast, hxstatus]
  · unfold get_test_case; rw [hk]; simp [hfast]
  · exact ⟨"Network error fetching test case: ", "", by rw [String.append_empty]⟩

/-- Witness for C4 at `PROJ-999`, status 500 and a network failure. -/
theorem http_error_taxonomy_witness :
    (get_issue "https://jira" "PROJ-999" true ⟨.httpError 404, .netError "x"⟩).result
      = .error (.valueError "Issue PROJ-999 does not exist") ∧
    (get_issue "https://jira" "PROJ-999" true ⟨.httpError 401, .netError "x"⟩).result
      = .error (.permissionError "Authentication failed. Check Jira credentials.") ∧
    (get_issue "https://jira" "PROJ-999" true ⟨.httpError 500, .netError "x"⟩).result
      = .error (.runtimeError "Failed to fetch issue PROJ-999: HTTP 500") ∧
    (get_test_case 86400 "PROJ-999" ⟨some "tok", 100⟩ 0
        ⟨.netError "x", .httpError 404⟩).result
      = .error (.valueError "Test case PROJ-999 does not exist") := by
  have h := http_error_taxonomy "https://jira" "PROJ-999" (by decide) 500
    (by decide) (by decide) (by decide) "timeout" (.netError "x")
    86400 0 ⟨some "tok", 100⟩ "tok" rfl (by decide) (by decide) (.netError "x")
  exact ⟨h.1.1, h.2.1, h.2.2.2.1.1, h.2.2.2.2.2.2.1.1⟩

/-! ### Claim C5 — extraction of `data.getTests` -/

theorem extractTest_notfound
    (key : String) (bd dd gt : List (String × JVal)) (n : Int) (rs : List JVal)
    (hdata : pyGet bd "data" = some (JVal.obj dd))
    (hgt : pyGet dd "getTests" = some (JVal.obj gt))
    (htot : pyGet gt "total" = some (JVal.num n))
    (hres : pyGet gt "results" = some (JVal.arr rs))
    (h : n = 0 ∨ rs = []) :
    extractTest key (.obj bd)
      = .error (.valueError ("Test case " ++ key ++ " not found")) := by
  simp only [extractTest]
  rw [hdata]
  simp only [Option.getD_some]
  rw [hgt]
  simp only [Option.getD_some]
  rw [htot, hres]
  simp only [Option.getD_some]
  rcases h with h0 | h0
  · simp [pyEqZero, h0]
  · by_cases hn : n = 0
    · simp [pyEqZero, hn]
    · simp [pyEqZero, hn, h0, pyTruthy]

theorem extractTest_first
    (key : String) (bd dd gt : List (String × JVal)) (n : Int) (x : JVal)
    (xs : List JVal)
    (hdata : pyGet bd "data" = some (JVal.obj dd))
    (hgt : pyGet dd "getTests" = some (JVal.obj gt))
    (htot : pyGet gt "total" = some (JVal.num n))
    (hres : pyGet gt "results" = some (JVal.arr (x :: xs)))
    (hn : n ≠ 0) :
    extractTest key (.obj bd) = .ok x := by
  simp only [extractTest]
  rw [hdata]
  simp only [Option.getD_some]
  rw [hgt]
  simp only [Option.getD_some]
  rw [htot, hres]
  simp only [Option.getD_some]
  simp [pyEqZero, hn, pyTruthy, pyIndexZero]

/-- Claim C5: with a valid token cached, `get_test_case` issues the
GraphQL query with a result-count ceiling of 100 and the filter
`key = <validated key>`; from the response it extracts `data.getTests`;
if `total` is 0 or the results list is empty it fails with the NotFound
`ValueError`, otherwise it returns the first element of the results list
unchanged. -/
theorem get_test_case_extracts_first
    (expires_in now : Int) (key : String) (hk : is_valid_issue_key key = true)
    (st : XrayState) (t : String) (ht : st.token = some t) (htne : t ≠ "")
    (hnow : now < st.token_expires_at)
    (aresp : AuthResult)
    (bd dd gt : List (String × JVal)) (n : Int) (rs : List JVal)
    (hdata : pyGet bd "data" = some (JVal.obj dd))
    (hgt : pyGet dd "getTests" = some (JVal.obj gt))
    (htot : pyGet gt "total" = some (JVal.num n))
    (hres : pyGet gt "results" = some (JVal.arr rs)) :
    (get_test_case expires_in key st now ⟨aresp, .success (.obj bd)⟩).calls
        = [XrayReq.graphqlQuery t ("key = " ++ key) 100] ∧
    (get_test_case expires_in key st now ⟨aresp, .success (.obj bd)⟩).state = st ∧
    ((n = 0 ∨ rs = []) →
      (get_test_case expires_in key st now ⟨aresp, .success (.obj bd)⟩).result
        = .error (.valueError ("Test case " ++ key ++ " not found"))) ∧
    (∀ x xs, n ≠ 0 → rs = x :: xs →
      (get_test_case expires_in key st now ⟨aresp, .success (.obj bd)⟩).result
        = .ok x) := by
  have hfast : ensure_valid_token expires_in st now aresp
      = { result := .ok (), state := st, calls := [] } := by
    unfold ensure_valid_token
    rw [if_pos]
    constructor
    · rw [ht]; simp [tokenIsTruthy, htne]
    · exact hnow
  have hmain : get_test_case expires_in key st now ⟨aresp, .success (.obj bd)⟩
      = { result := extractTest key (.obj bd), state := st,
          calls := [XrayReq.graphqlQuery t ("key = " ++ key) 100] } := by
    unfold get_test_case
    rw [hk]
    simp only [Bool.true_eq_false, if_false, hfast]
    rw [ht]
    rfl
  refine ⟨by rw [hmain], by rw [hmain], ?_, ?_⟩
  · intro h0
    rw [hmain]
    exact extractTest_notfound key bd dd gt n rs hdata hgt htot hres h0
  · intro x xs hn hrs
    rw [hmain]
    exact extractTest_first key bd dd gt n x xs hdata hgt htot (hrs ▸ hres) hn

/-- Witness for C5: the spec's empty response yields NotFound, and a
one-element response yields that element, queried with `limit = 100`
and `jql = "key = XSP-1"`. -/
theorem get_test_case_extracts_first_witness :
    (get_test_case 86400 "XSP-1" ⟨some "tok", 100⟩ 0
        ⟨.netError "x", .success (.obj [("data", .obj [("getTests", .obj
            [("total", .num 0), ("results", .arr [])])])])⟩).result
      = .error (.valueError "Test case XSP-1 not found") ∧
    (get_test_case 86400 "XSP-1" ⟨some "tok", 100⟩ 0
        ⟨.netError "x", .success (.obj [("data", .obj [("getTests", .obj
            [("total", .num 1), ("results", .arr [.obj [("issueId", .str "10")]])])])])⟩).result
      = .ok (.obj [("issueId", .str "10")]) ∧
    (get_test_case 86400 "XSP-1" ⟨some "tok", 100⟩ 0
        ⟨.netError "x", .success (.obj [("data", .obj [("getTests", .obj
            [("total", .num 1), ("results", .arr [.obj [("issueId", .str "10")]])])])])⟩).calls
      = [XrayReq.graphqlQuery "tok" "key = XSP-1" 100] := by
  have h0 := get_test_case_extracts_first 86400 0 "XSP-1" (by decide)
    ⟨some "tok", 100⟩ "tok" rfl (by decide) (by decide) (.netError "x")
    [("data", .obj [("getTests", .obj [("total", .num 0), ("results", .arr [])])])]
    [("getTests", .obj [("total", .num 0), ("results", .arr [])])]
    [("total", .num 0), ("results", .arr [])] 0 []
    (by decide) (by decide) (by decide) (by decide)
  have h1 := get_test_case_extracts_first 86400 0 "XSP-1" (by decide)
    ⟨some "tok", 100⟩ "tok" rfl (by decide) (by decide) (.netError "x")
    [("data", .obj [("getTests", .obj
        [("total", .num 1), ("results", .arr [.obj [("issueId", .str "10")]])])])]
    [("getTests", .obj [("total", .num 1), ("results", .arr [.obj [("issueId", .str "10")]])])]
    [("total", .num 1), ("results", .arr [.obj [("issueId", .str "10")]])] 1
    [.obj [("issueId", .str "10")]]
    (by decide) (by decide) (by decide) (by decide)
  exact ⟨h0.2.2.1 (Or.inl rfl),
         h1.2.2.2 (.obj [("issueId", .str "10")]) [] (by decide) rfl,
         h1.1⟩

/-! ### Claim C6 — token refresh condition and refreshed state -/

/-- Claim C6, counterexample to the "refreshes if and only if no token
is cached or `now >= expiry`" part: with the cached token `""` (the
empty string, as stored after an empty authentication body) and
`now = 0 < 10 = expiry`, a token *is* cached and `now < expiry`, yet
`_ensure_valid_token` performs a refresh, because Python truthiness
treats the empty string like a missing token. -/
theorem token_refresh_iff_cex :
    (⟨some "", 10⟩ : XrayState).token ≠ none ∧
    ((0 : Int) < (⟨some "", 10⟩ : XrayState).token_expires_at) ∧
    (ensure_valid_token 86400 ⟨some "", 10⟩ 0 (.success "tok")).calls
      = [.authPost] := by decide

/-- Claim C6 (amended): on a token refresh the stored token equals the
authentication body stripped of surrounding whitespace and one pair of
surrounding double quotes, and the expiry is `now + expires_in - 60`;
`ensure_valid_token` refreshes if and only if no token is cached, the
cached token is the empty string, or `now >= expiry`; correspondingly a
`get_test_case` call in the refresh condition performs exactly one
authentication POST before the data query, and one outside it performs
none. -/
theorem token_refresh_amended
    (expires_in now : Int) (st : XrayState) (body : String)
    (key : String) (hk : is_valid_issue_key key = true) (qr : HttpResult) :
    ((ensure_valid_token expires_in st now (.success body)).calls ≠ [] ↔
       (st.token = none ∨ st.token = some "" ∨ now ≥ st.token_expires_at)) ∧
    ((st.token = none ∨ st.token = some "" ∨ now ≥ st.token_expires_at) →
       ensure_valid_token expires_in st now (.success body)
         = { result := .ok (),
             state := ⟨some (parseToken body),
                       now + expires_in - TOKEN_REFRESH_BUFFER_SECONDS⟩,
             calls := [.authPost] }) ∧
    (¬ (st.token = none ∨ st.token = some "" ∨ now ≥ st.token_expires_at) →
       ensure_valid_token expires_in st now (.success body)
         = { result := .ok (), state := st, calls := [] }) ∧
    ((st.token = none ∨ st.token = some "" ∨ now ≥ st.token_expires_at) →
       (get_test_case expires_in key st now ⟨.success body, qr⟩).calls
         = [XrayReq.authPost,
            XrayReq.graphqlQuery (parseToken body) ("key = " ++ key) 100]) ∧
    (¬ (st.token = none ∨ st.token = some "" ∨ now ≥ st.token_expires_at) →
       (get_test_case expires_in key st now ⟨.success body, qr⟩).calls
         = [XrayReq.graphqlQuery (st.token.getD "None") ("key = " ++ key) 100]) := by
  have hcond : tokenIsTruthy st.token = false ∨ ¬ now < st.token_expires_at ↔
      (st.token = none ∨ st.token = some "" ∨ now ≥ st.token_expires_at) := by
    cases htok : st.token with
    | none => simp [tokenIsTruthy, ge_iff_le, not_lt]
    | some t =>
      by_cases ht : t = ""
      · subst ht; simp [tokenIsTruthy, ge_iff_le, not_lt]
      · simp [tokenIsTruthy, ht, ge_iff_le, not_lt]
  have hrefresh : (st.token = none ∨ st.token = some "" ∨ now ≥ st.token_expires_at) →
      ensure_valid_token expires_in st now (.success body)
        = { result := .ok (),
            state := ⟨some (parseToken body),
                      now + expires_in - TOKEN_REFRESH_BUFFER_SECONDS⟩,
            calls := [.authPost] } := by
    intro h
    have h2 : tokenIsTruthy st.token = false ∨ ¬ now < st.token_expires_at := hcond.mpr h
    unfold ensure_valid_token
    rw [if_neg, if_pos]
    · rfl
    · rcases h2 with h2 | h2
      · exact Or.inl (by simp [h2])
      · exact Or.inr (not_lt.mp h2)
    · rintro ⟨ha, hb⟩
      rcases h2 with h2 | h2
      · rw [h2] at ha; exact Bool.false_ne_true ha
      · exact h2 hb
  have hskip : ¬ (st.token = none ∨ st.token = some "" ∨ now ≥ st.token_expires_at) →
      ensure_valid_token expires_in st now (.success body)
        = { result := .ok (), state := st, calls := [] } := by
    intro h
    have h2 : ¬ (tokenIsTruthy st.token = false ∨ ¬ now < st.token_expires_at) :=
      fun hc => h (hcond.mp hc)
    push_neg at h2
    obtain ⟨h3, h4⟩ := h2
    unfold ensure_valid_token
    rw [if_pos ⟨by simpa using h3, h4⟩]
  refine ⟨?_, hrefresh, hskip, ?_, ?_⟩
  · constructor
    · intro hne
      by_contra hcon
      rw [hskip hcon] at hne
      exact hne rfl
    · intro h
      rw [hrefresh h]
      simp
  · intro h
    unfold get_test_case
    rw [hk]
    simp only [Bool.true_eq_false, if_false, hrefresh h]
    cases qr <;> rfl
  · intro h
    unfold get_test_case
    rw [hk]
    simp only [Bool.true_eq_false, if_false, hskip h]
    cases qr <;> rfl

/-- Witness for C6's amended theorem: an uncached token triggers one
refresh storing the parsed token `tok123` with expiry `86340`, and a
freshly refreshed state triggers none. -/
theorem token_refresh_amended_witness :
    ensure_valid_token 86400 ⟨none, 0⟩ 0 (.success " \"tok123\" ")
      = { result := .ok (), state := ⟨some "tok123", 86340⟩, calls := [.authPost] } ∧
    (get_test_case 86400 "XSP-2" ⟨none, 0⟩ 0 ⟨.success " \"tok123\" ", .netError "x"⟩).calls
      = [XrayReq.authPost, XrayReq.graphqlQuery "tok123" "key = XSP-2" 100] ∧
    (get_test_case 86400 "XSP-2" ⟨some "tok123", 86340⟩ 0
        ⟨.success " \"tok123\" ", .netError "x"⟩).calls
      = [XrayReq.graphqlQuery "tok123" "key = XSP-2" 100] := by
  have h1 := token_refresh_amended 86400 0 ⟨none, 0⟩ " \"tok123\" " "XSP-2" (by decide)
    (.netError "x")
  have h2 := token_refresh_amended 86400 0 ⟨some "tok123", 86340⟩ " \"tok123\" " "XSP-2"
    (by decide) (.netError "x")
  exact ⟨h1.2.1 (Or.inl rfl), h1.2.2.2.1 (Or.inl rfl),
         h2.2.2.2.2 (by rintro (h | h | h) <;> simp_all)⟩

/-! ### Claim C9 — failed token fetch leaves the token state unchanged -/

/-- Claim C9: if the token fetch fails — non-success HTTP status on the
authentication POST or a network failure — the cached token and its
expiry are unchanged: `_fetch_token` assigns them only after a
successful response, so `get_test_case` propagates the raw transport
error with the client state exactly as before the call. -/
theorem token_fetch_failure_preserves_state
    (expires_in now : Int) (st : XrayState) (n : Nat) (m : String)
    (key : String) (hk : is_valid_issue_key key = true)
    (hrefresh : ¬ tokenIsTruthy st.token = true ∨ now ≥ st.token_expires_at)
    (qr : HttpResult) :
    ((fetch_token expires_in st now (.httpError n)).state = st ∧
     (fetch_token expires_in st now (.httpError n)).result
        = .error (.httpStatusError n)) ∧
    ((fetch_token expires_in st now (.netError m)).state = st ∧
     (fetch_token expires_in st now (.netError m)).result
        = .error (.requestError m)) ∧
    ((get_test_case expires_in key st now ⟨.httpError n, qr⟩).state = st ∧
     (get_test_case expires_in key st now ⟨.httpError n, qr⟩).result
        = .error (.httpStatusError n) ∧
     (get_test_case expires_in key st now ⟨.httpError n, qr⟩).calls = [.authPost]) ∧
    ((get_test_case expires_in key st now ⟨.netError m, qr⟩).state = st ∧
     (get_test_case expires_in key st now ⟨.netError m, qr⟩).result
        = .error (.requestError m) ∧
     (get_test_case expires_in key st now ⟨.netError m, qr⟩).calls = [.authPost]) := by
  have hcond : ¬ (tokenIsTruthy st.token = true ∧ now < st.token_expires_at) := by
    rintro ⟨h1, h2⟩
    rcases hrefresh with h | h
    · exact h h1
    · exact absurd h2 (not_lt.mpr h)
  have hcond2 : ¬ tokenIsTruthy st.token = true ∨ now ≥ st.token_expires_at := hrefresh
  have hens : ∀ a : AuthResult, ensure_valid_token expires_in st now a
      = fetch_token expires_in st now a := by
    intro a
    unfold ensure_valid_token
    rw [if_neg hcond, if_pos]
    rcases hcond2 with h | h
    · exact Or.inl h
    · exact Or.inr h
  refine ⟨⟨rfl, rfl⟩, ⟨rfl, rfl⟩, ?_, ?_⟩
  · unfold get_test_case
    rw [hk]
    simp only [Bool.true_eq_false, if_false, hens]
    exact ⟨rfl, rfl, rfl⟩
  · unfold get_test_case
    rw [hk]
    simp only [Bool.true_eq_false, if_false, hens]
    exact ⟨rfl, rfl, rfl⟩

/-- Witness for C9 with an uncached token, a 503 on the POST and a
connection failure. -/
theorem token_fetch_failure_preserves_state_witness :
    (get_test_case 86400 "XSP-3" ⟨none, 0⟩ 5 ⟨.httpError 503, .netError "x"⟩).state
      = ⟨none, 0⟩ ∧
    (get_test_case 86400 "XSP-3" ⟨none, 0⟩ 5 ⟨.httpError 503, .netError "x"⟩).result
      = .error (.httpStatusError 503) ∧
    (get_test_case 86400 "XSP-3" ⟨none, 0⟩ 5 ⟨.netError "down", .netError "x"⟩).state
      = ⟨none, 0⟩ ∧
    (fetch_token 86400 ⟨some "old", 3⟩ 5 (.netError "down")).state
      = ⟨some "old", 3⟩ := by
  have h1 := token_fetch_failure_preserves_state 86400 5 ⟨none, 0⟩ 503 "down" "XSP-3"
    (by decide) (by exact Or.inr (by decide)) (.netError "x")
  have h2 := token_fetch_failure_preserves_state 86400 5 ⟨some "old", 3⟩ 503 "down" "XSP-3"
    (by decide) (by exact Or.inr (by decide)) (.netError "x")
  exact ⟨h1.2.2.1.1, h1.2.2.1.2.1, h1.2.2.2.1, h2.2.1.1⟩

/-! ### Claim C8 — tool gateway error translation -/

/-- Claim C8: for every invocation of the `get_jira_issue` and
`get_xray_test_case` tools, a domain error (`ValueError`,
`PermissionError`, `RuntimeError` — i.e. InvalidInput / NotFound /
PermissionDenied / Runtime) raised by the client is re-signalled as a
`ToolError` carrying the original message; any other failure (the raw
transport exceptions escaping the token fetch) is re-raised unmodified;
a successful client result is returned unchanged, with the same request
trace and (for Xray) the same final token state. -/
theorem tool_error_translation
    (base key : String) (jenv : JiraEnv)
    (expires_in now : Int) (st : XrayState) (xenv : XrayEnv) :
    ((get_jira_issue base key jenv).calls = (get_issue base key true jenv).calls) ∧
    (∀ v, (get_issue base key true jenv).result = .ok v →
       (get_jira_issue base key jenv).result = .ok v) ∧
    (∀ m, (get_issue base key true jenv).result = .error (.valueError m) →
       (get_jira_issue base key jenv).result = .error (.toolError m)) ∧
    (∀ m, (get_issue base key true jenv).result = .error (.permissionError m) →
       (get_jira_issue base key jenv).result = .error (.toolError m)) ∧
    (∀ m, (get_issue base key true jenv).result = .error (.runtimeError m) →
       (get_jira_issue base key jenv).result = .error (.toolError m)) ∧
    ((get_xray_test_case expires_in key st now xenv).state
        = (get_test_case expires_in key st now xenv).state) ∧
    ((get_xray_test_case expires_in key st now xenv).calls
        = (get_test_case expires_in key st now xenv).calls) ∧
    (∀ v, (get_test_case expires_in key st now xenv).result = .ok v →
       (get_xray_test_case expires_in key st now xenv).result = .ok v) ∧
    (∀ m, (get_test_case expires_in key st now xenv).result = .error (.valueError m) →
       (get_xray_test_case expires_in key st now xenv).result = .error (.toolError m)) ∧
    (∀ m, (get_test_case expires_in key st now xenv).result = .error (.permissionError m) →
       (get_xray_test_case expires_in key st now xenv).result = .error (.toolError m)) ∧
    (∀ m, (get_test_case expires_in key st now xenv).result = .error (.runtimeError m) →
       (get_xray_test_case expires_in key st now xenv).result = .error (.toolError m)) ∧
    (∀ n, (get_test_case expires_in key st now xenv).result = .error (.httpStatusError n) →
       (get_xray_test_case expires_in key st now xenv).result = .error (.httpStatusError n)) ∧
    (∀ m, (get_test_case expires_in key st now xenv).result = .error (.requestError m) →
       (get_xray_test_case expires_in key st now xenv).result = .error (.requestError m)) := by
  refine ⟨rfl, ?_, ?_, ?_, ?_, rfl, rfl, ?_, ?_, ?_, ?_, ?_, ?_⟩ <;>
    intro a h <;>
    simp only [get_jira_issue, get_xray_test_case, h, toolWrap]

/-- Witness for C8: a NotFound `ValueError` (404) becomes a `ToolError`
with the same message; a raw auth transport error passes through; a
successful lookup is returned unchanged. -/
theorem tool_error_translation_witness :
    (get_jira_issue "https://jira" "PROJ-9" ⟨.httpError 404, .netError "x"⟩).result
      = .error (.toolError "Issue PROJ-9 does not exist") ∧
    (get_xray_test_case 86400 "XSP-9" ⟨none, 0⟩ 0 ⟨.httpError 503, .netError "x"⟩).result
      = .error (.httpStatusError 503) ∧
    (get_jira_issue "https://jira" "PROJ-9"
        ⟨.success (.obj []), .success (.arr [])⟩).result
      = .ok ⟨basicInfo [] [], some []⟩ := by
  have h1 := tool_error_translation "https://jira" "PROJ-9" ⟨.httpError 404, .netError "x"⟩
    86400 0 ⟨none, 0⟩ ⟨.httpError 503, .netError "x"⟩
  have h2 := tool_error_translation "https://jira" "PROJ-9"
    ⟨.success (.obj []), .success (.arr [])⟩
    86400 0 ⟨none, 0⟩ ⟨.httpError 503, .netError "x"⟩
  have h3 := tool_error_translation "https://jira" "XSP-9" ⟨.httpError 404, .netError "x"⟩
    86400 0 ⟨none, 0⟩ ⟨.httpError 503, .netError "x"⟩
  exact ⟨h1.2.2.1 "Issue PROJ-9 does not exist" (by decide),
         h3.2.2.2.2.2.2.2.2.2.2.2.1 503 (by decide),
         h2.2.1 ⟨basicInfo [] [], some []⟩ (by decide)⟩

/-! ### Claim C7 — single-flight token refresh under interleaving -/

theorem C7Inv_step (expires_in now : Int) (body : String)
    (hT : parseToken body ≠ "")
    (hE : now < now + expires_in - TOKEN_REFRESH_BUFFER_SECONDS)
    (s : CState) (i : Bool) (hinv : C7Inv expires_in now body s) :
    C7Inv expires_in now body (step expires_in now body s i) := by
  obtain ⟨h1, h2, h3, h4, h5, h6, h7, h8, h9, h10⟩ := hinv
  have htokTrue : tokenIsTruthy s.token = true → s.token = some (parseToken body) := by
    intro htr
    rcases h1 with h | h
    · rw [h] at htr; simp [tokenIsTruthy] at htr
    · exact h.1
  have hnorefresh : s.token = some (parseToken body) →
      s.exp = now + expires_in - TOKEN_REFRESH_BUFFER_SECONDS →
      ¬ (¬ tokenIsTruthy s.token = true ∨ now ≥ s.exp) := by
    intro ht hx
    rintro (hc | hc)
    · exact hc (by simp [ht, tokenIsTruthy, hT])
    · rw [hx] at hc; exact absurd hE (not_lt.mpr hc)
  cases i
  case false =>
    cases hpc : s.pc0 with
    | start =>
      by_cases hc : tokenIsTruthy s.token = true ∧ now < s.exp
      · have hs : step expires_in now body s false = { s with pc0 := .query } := by
          simp only [step, CState.pcOf, hpc]
          rw [if_pos hc]
          rfl
        rw [hs]
        have htok := htokTrue hc.1
        refine ⟨Or.inr ⟨htok, ?_⟩, by simp, by simpa using h3, by simp, by simpa using h5,
          by simpa [hpc] using h6, fun _ => htok, by simpa using h8, by simp,
          by simpa using h10⟩
        rcases h1 with h | h
        · rw [h] at htok; cases htok
        · exact h.2
      · have hs : step expires_in now body s false = { s with pc0 := .waitLock } := by
          simp only [step, CState.pcOf, hpc]
          rw [if_neg hc]
          rfl
        rw [hs]
        exact ⟨h1, by simp, by simpa using h3, by simp, by simpa using h5,
          by simpa [hpc] using h6, by simp, by simpa using h8, by simp,
          by simpa using h10⟩
    | waitLock =>
      cases hlk : s.lockBy with
      | none =>
        have hs : step expires_in now body s false
            = { s with pc0 := .locked, lockBy := some false } := by
          simp only [step, CState.pcOf, hpc, hlk]
          rfl
        rw [hs]
        have hpc1 : ¬ (s.pc1 = .locked ∨ s.pc1 = .fetching) := by
          intro h
          rw [hlk] at h3
          cases h3 h
        refine ⟨h1, fun _ => rfl, fun h => absurd h hpc1, by simp, by simpa using h5,
          by simpa [hpc] using h6, by simp, by simpa using h8, by simp,
          by simpa using h10⟩
      | some j =>
        have hs : step expires_in now body s false = s := by
          simp only [step, CState.pcOf, hpc, hlk]
        rw [hs]
        exact ⟨h1, h2, h3, h4, h5, h6, h7, h8, h9, h10⟩
    | locked =>
      have hlock := h2 (Or.inl hpc)
      by_cases hc : ¬ tokenIsTruthy s.token = true ∨ now ≥ s.exp
      · have hs : step expires_in now body s false
            = { s with pc0 := .fetching, nAuth := s.nAuth + 1 } := by
          simp only [step, CState.pcOf, hpc]
          rw [if_pos hc]
          rfl
        rw [hs]
        have htok : s.token = none := by
          rcases h1 with h | h
          · exact h
          · exact absurd hc (hnorefresh h.1 h.2)
        refine ⟨h1, fun _ => hlock, by simpa using h3, fun _ => htok,
          by simpa using h5, ?_, by simp, by simpa using h8, by simp,
          by simpa using h10⟩
        by_cases hp1 : s.pc1 = TaskPC.fetching <;>
          simp [hpc, htok, hp1] at h6 ⊢ <;> omega
      · have hs : step expires_in now body s false
            = { s with pc0 := .query, lockBy := none } := by
          simp only [step, CState.pcOf, hpc]
          rw [if_neg hc]
          rfl
        rw [hs]
        push_neg at hc
        have htok := htokTrue hc.1
        have hpc1 : ¬ (s.pc1 = .locked ∨ s.pc1 = .fetching) := by
          intro h
          rw [hlock] at h3
          cases h3 h
        refine ⟨h1, by simp, fun h => absurd h hpc1, by simp, by simpa using h5,
          by simpa [hpc] using h6, fun _ => htok, by simpa using h8, by simp,
          by simpa using h10⟩
    | fetching =>
      have hlock := h2 (Or.inr hpc)
      have htok := h4 hpc
      have hpc1 : ¬ (s.pc1 = .locked ∨ s.pc1 = .fetching) := by
        intro h
        rw [hlock] at h3
        cases h3 h
      have hs : step expires_in now body s false
          = { s with
                pc0 := .query
                token := some (parseToken body)
                exp := now + expires_in - TOKEN_REFRESH_BUFFER_SECONDS
                lockBy := none } := by
        simp only [step, CState.pcOf, hpc]
        rfl
      rw [hs]
      refine ⟨Or.inr ⟨rfl, rfl⟩, by simp, fun h => absurd h hpc1, by simp,
        ?_, ?_, fun _ => rfl, fun _ => rfl, by simp, by simpa using h10⟩
      · intro h
        exact absurd (Or.inr h) hpc1
      · have hp1 : ¬ s.pc1 = TaskPC.fetching := fun h => hpc1 (Or.inr h)
        simp [hpc, htok, hp1] at h6 ⊢
        omega
    | query =>
      have htok := h7 (Or.inl hpc)
      have hs : step expires_in now body s false
          = { s with pc0 := .done, q0 := some (s.token.getD "None") } := by
        simp only [step, CState.pcOf, hpc]
        rfl
      rw [hs]
      refine ⟨h1, by simp, by simpa using h3, by simp, by simpa using h5,
        by simpa [hpc] using h6, fun _ => htok, by simpa using h8,
        fun _ => by rw [htok]; rfl, by simpa using h10⟩
    | done =>
      have hs : step expires_in now body s false = s := by
        simp only [step, CState.pcOf, hpc]
      rw [hs]
      exact ⟨h1, h2, h3, h4, h5, h6, h7, h8, h9, h10⟩
  case true =>
    cases hpc : s.pc1 with
    | start =>
      by_cases hc : tokenIsTruthy s.token = true ∧ now < s.exp
      · have hs : step expires_in now body s true = { s with pc1 := .query } := by
          simp only [step, CState.pcOf, hpc]
          rw [if_pos hc]
          rfl
        rw [hs]
        have htok := htokTrue hc.1
        refine ⟨Or.inr ⟨htok, ?_⟩, by simpa using h2, by simp, by simpa using h4,
          by simp, by simpa [hpc] using h6, by simpa using h7, fun _ => htok,
          by simpa using h9, by simp⟩
        rcases h1 with h | h
        · rw [h] at htok; cases htok
        · exact h.2
      · have hs : step expires_in now body s true = { s with pc1 := .waitLock } := by
          simp only [step, CState.pcOf, hpc]
          rw [if_neg hc]
          rfl
        rw [hs]
        exact ⟨h1, by simpa using h2, by simp, by simpa using h4, by simp,
          by simpa [hpc] using h6, by simpa using h7, by simp,
          by simpa using h9, by simp⟩
    | waitLock =>
      cases hlk : s.lockBy with
      | none =>
        have hs : step expires_in now body s true
            = { s with pc1 := .locked, lockBy := some true } := by
          simp only [step, CState.pcOf, hpc, hlk]
          rfl
        rw [hs]
        have hpc0 : ¬ (s.pc0 = .locked ∨ s.pc0 = .fetching) := by
          intro h
          rw [hlk] at h2
          cases h2 h
        refine ⟨h1, fun h => absurd h hpc0, fun _ => rfl, by simpa using h4,
          by simp, by simpa [hpc] using h6, by simpa using h7, by simp,
          by simpa using h9, by simp⟩
      | some j =>
        have hs : step expires_in now body s true = s := by
          simp only [step, CState.pcOf, hpc, hlk]
        rw [hs]
        exact ⟨h1, h2, h3, h4, h5, h6, h7, h8, h9, h10⟩
    | locked =>
      have hlock := h3 (Or.inl hpc)
      by_cases hc : ¬ tokenIsTruthy s.token = true ∨ now ≥ s.exp
      · have hs : step expires_in now body s true
            = { s with pc1 := .fetching, nAuth := s.nAuth + 1 } := by
          simp only [step, CState.pcOf, hpc]
          rw [if_pos hc]
          rfl
        rw [hs]
        have htok : s.token = none := by
          rcases h1 with h | h
          · exact h
          · exact absurd hc (hnorefresh h.1 h.2)
        refine ⟨h1, by simpa using h2, fun _ => hlock, by simpa using h4,
          fun _ => htok, ?_, by simpa using h7, by simp,
          by simpa using h9, by simp⟩
        by_cases hp0 : s.pc0 = TaskPC.fetching <;>
          simp [hpc, htok, hp0] at h6 ⊢ <;> omega
      · have hs : step expires_in now body s true
            = { s with pc1 := .query, lockBy := none } := by
          simp only [step, CState.pcOf, hpc]
          rw [if_neg hc]
          rfl
        rw [hs]
        push_neg at hc
        have htok := htokTrue hc.1
        have hpc0 : ¬ (s.pc0 = .locked ∨ s.pc0 = .fetching) := by
          intro h
          rw [hlock] at h2
          cases h2 h
        refine ⟨h1, fun h => absurd h hpc0, by simp, by simpa using h4,
          by simp, by simpa [hpc] using h6, by simpa using h7, fun _ => htok,
          by simpa using h9, by simp⟩
    | fetching =>
      have hlock := h3 (Or.inr hpc)
      have htok := h5 hpc
      have hpc0 : ¬ (s.pc0 = .locked ∨ s.pc0 = .fetching) := by
        intro h
        rw [hlock] at h2
        cases h2 h
      have hs : step expires_in now body s true
          = { s with
                pc1 := .query
                token := some (parseToken body)
                exp := now + expires_in - TOKEN_REFRESH_BUFFER_SECONDS
                lockBy := none } := by
        simp only [step, CState.pcOf, hpc]
        rfl
      rw [hs]
      refine ⟨Or.inr ⟨rfl, rfl⟩, fun h => absurd h hpc0, by simp, ?_, by simp,
        ?_, fun _ => rfl, fun _ => rfl, by simpa using h9, by simp⟩
      · intro h
        exact absurd (Or.inr h) hpc0
      · have hp0 : ¬ s.pc0 = TaskPC.fetching := fun h => hpc0 (Or.inr h)
        simp [hpc, htok, hp0] at h6 ⊢
        omega
    | query =>
      have htok := h8 (Or.inl hpc)
      have hs : step expires_in now body s true
          = { s with pc1 := .done, q1 := some (s.token.getD "None") } := by
        simp only [step, CState.pcOf, hpc]
        rfl
      rw [hs]
      refine ⟨h1, by simpa using h2, by simp, by simpa using h4, by simp,
        by simpa [hpc] using h6, by simpa using h7, fun _ => htok,
        by simpa using h9, fun _ => by rw [htok]; rfl⟩
    | done =>
      have hs : step expires_in now body s true = s := by
        simp only [step, CState.pcOf, hpc]
      rw [hs]
      exact ⟨h1, h2, h3, h4, h5, h6, h7, h8, h9, h10⟩

theorem C7Inv_run (expires_in now : Int) (body : String)
    (hT : parseToken body ≠ "")
    (hE : now < now + expires_in - TOKEN_REFRESH_BUFFER_SECONDS) :
    ∀ (sched : List Bool) (s : CState), C7Inv expires_in now body s →
      C7Inv expires_in now body (run expires_in now body sched s) := by
  intro sched
  induction sched with
  | nil => intro s h; exact h
  | cons i rest ih =>
    intro s h
    exact ih (step expires_in now body s i) (C7Inv_step expires_in now body hT hE s i h)

theorem C7Inv_init (expires_in now : Int) (body : String) :
    C7Inv expires_in now body initCState :=
  ⟨Or.inl rfl, by simp [initCState], by simp [initCState], by simp [initCState],
   by simp [initCState], by simp [initCState], by simp [initCState],
   by simp [initCState], by simp [initCState], by simp [initCState]⟩

/-- Claim C7: two concurrent `get_test_case` calls issued when no token
is cached perform exactly one authentication POST under *every*
interleaving of the cooperative scheduler (atomic segments between
`await` points), and both queries present the same token — the one
parsed from the single authentication response.  Hypotheses: the parsed
token is non-empty and `expires_in` exceeds the 60-second buffer (both
hold for real tokens), and the schedule runs both tasks to completion. -/
theorem xray_single_flight (expires_in now : Int) (body : String)
    (hT : parseToken body ≠ "") (hbuf : 60 < expires_in) (sched : List Bool)
    (hdone0 : (run expires_in now body sched initCState).pc0 = .done)
    (hdone1 : (run expires_in now body sched initCState).pc1 = .done) :
    (run expires_in now body sched initCState).nAuth = 1 ∧
    (run expires_in now body sched initCState).q0 = some (parseToken body) ∧
    (run expires_in now body sched initCState).q1 = some (parseToken body) := by
  have hE : now < now + expires_in - TOKEN_REFRESH_BUFFER_SECONDS := by
    unfold TOKEN_REFRESH_BUFFER_SECONDS
    omega
  obtain ⟨h1, h2, h3, h4, h5, h6, h7, h8, h9, h10⟩ :=
    C7Inv_run expires_in now body hT hE sched initCState
      (C7Inv_init expires_in now body)
  have htok := h7 (Or.inr hdone0)
  refine ⟨?_, h9 hdone0, h10 hdone1⟩
  simp [hdone0, hdone1, htok] at h6
  exact h6

/-- Witness for C7: a concrete interleaving in which task 0 refreshes
while task 1 arrives, completed by both tasks. -/
theorem xray_single_flight_witness :
    (run 86400 0 "tok" [false, true, false, true, false, true, false, true, false, true, false, true]
        initCState).nAuth = 1 ∧
    (run 86400 0 "tok" [false, true, false, true, false, true, false, true, false, true, false, true]
        initCState).q0 = some "tok" ∧
    (run 86400 0 "tok" [false, true, false, true, false, true, false, true, false, true, false, true]
        initCState).q1 = some "tok" :=
  xray_single_flight 86400 0 "tok" (by decide) (by decide)
    [false, true, false, true, false, true, false, true, false, true, false, true]
    (by decide) (by decide)
